import Mathlib

/-!
# CartridgeBUS (Stella, `src/emucore/CartBUS.cxx`)

A shallow embedding of the BUS bankswitching cartridge: the bank state, the
8 KiB Harmony RAM with its datastream pointer / increment / address-map
tables, the fast-jump and bus-overdrive sub-states, and the read and write
entry points `peek` and `poke`.

Conventions of the embedding.

* Machine integers are natural numbers; every store into a `uInt8`, `uInt16`
  or `uInt32` location is followed by the explicit reduction `% 256`,
  `% 65536` or `% 4294967296`.
* `myImage` (32768 bytes) and `myBUSRAM` (8192 bytes) are total maps from an
  index to a cell.  The source gives no meaning to an access past the end of
  an array; the maps leave the cells beyond the array unconstrained, so every
  theorem holds whatever such an access would return.
* `CartBUS.hxx` is not among the sources.  The widths of the members are those
  of the members of the same names of the sibling class `CartridgeCDF`
  (`CartCDF.hxx`): `uInt16 myBankOffset`, `uInt16 myJMPoperandAddress`,
  `uInt8 myMode`, `uInt8 myFastJumpActive`, `uInt32 myMusicCounters[3]`,
  `uInt32 myMusicFrequencies[3]`, `uInt8 myMusicWaveformSize[3]`; the two
  further transient addresses are `uInt16` as well (they are saved with
  `putShort`).
* What the cartridge obtains from its collaborators (the system cycle counter,
  the two chips, the double arithmetic of the music clock, the ARM
  interpreter) is an explicit argument, the structure `System`.
-/

namespace Stella

/-! ## Locations within the RAM copy of the BUS driver (`CartBUS.cxx` 29-40) -/

def DSxPTR : Nat := 0x06D8
def DSxINC : Nat := 0x0720
def DSMAPS : Nat := 0x0760
def WAVEFORM : Nat := 0x07F4
def DSRAM : Nat := 0x0800

def COMMSTREAM : Nat := 0x10
def JUMPSTREAM : Nat := 0x11

/-- The device state: the members of `CartridgeBUS` and the two flags it
inherits from `Cartridge` (`myBankLocked`, read by `bankLocked()`, and
`myBankChanged`).  `myProgramImage` is `myImage + 4096`, `myBusDriverImage` is
`myBUSRAM` and `myDisplayImage` is `myBUSRAM + DSRAM` (constructor, lines
56-64); they are fixed offsets and are not stored.  `myFractionalClocks` is a
`double`; it is carried as an uninterpreted number. -/
structure CartridgeBUS where
  myImage : Nat → Nat
  myBUSRAM : Nat → Nat
  myBankOffset : Nat
  myBankLocked : Bool
  myBankChanged : Bool
  myStartBank : Nat
  myBusOverdriveAddress : Nat
  mySTYZeroPageAddress : Nat
  myJMPoperandAddress : Nat
  myAudioCycles : Nat
  myARMCycles : Nat
  myFractionalClocks : Nat
  myMusicCounters : Nat → Nat
  myMusicFrequencies : Nat → Nat
  myMusicWaveformSize : Nat → Nat
  myMode : Nat
  myFastJumpActive : Nat

/-- The two chips whose address space the cartridge mirrors. -/
inductive Chip where
  | m6532
  | tia
  deriving DecidableEq, Repr

/-- Modelled from the spec: the coprocessor interpreter (`Thumbulator`, not
among the sources) is an external collaborator run for a cycle budget; what one
run does to the device is the RAM it leaves behind, the `thumbCallback` calls
it makes (function, value1, value2, in order) and the runtime fault it raises,
if any.  A callback may index a music array outside its three elements; the
source gives such a write no meaning (it lands in whatever lies next to the
array), and `stray` is the device that the run leaves behind then: nothing
constrains it. -/
structure ThumbRun where
  ram : Nat → Nat
  callbacks : List (Nat × Nat × Nat)
  fault : Option String
  stray : CartridgeBUS

/-- The collaborators of the cartridge at the moment of one access:
`mySystem->cycles()`, `mySystem->autodetectMode()`, the values the two chips
return to a `peek`, the double arithmetic of `updateMusicModeDataFetchers`
(from the elapsed cycles and the stored fractional clocks to the whole clocks
and the new fractional clocks), and the interpreter run.  `wideShift x n` is
what the machine yields for the shift `x >> n` of a `uInt32` by a count `n` of
32 or more, to which the source gives no meaning: nothing constrains it. -/
structure System where
  cycles : Nat
  autodetectMode : Bool
  m6532Peek : Nat → Nat
  tiaPeek : Nat → Nat
  oscClocks : Nat → Nat → Nat × Nat
  thumbRun : CartridgeBUS → Int → ThumbRun
  wideShift : Nat → Nat → Nat

/-- What a `peek` yields: the byte returned, the chip the call was handed to
(if any) and the device afterwards. -/
structure PeekResult where
  value : Nat
  chip : Option Chip
  cart : CartridgeBUS

/-- What a `poke` yields: the boolean returned, the write handed to a chip (the
chip, the address and the value), the fatal error surfaced (if any) and the
device afterwards. -/
structure PokeResult where
  changed : Bool
  chip : Option (Chip × Nat × Nat)
  fatal : Option String
  cart : CartridgeBUS

/-- A store into a `uInt8` array cell. -/
def store (m : Nat → Nat) (a v : Nat) : Nat → Nat :=
  fun x => if x = a then v % 256 else m x

/-- A store into a cell of one of the three-element music arrays, whose
element is `w` bits wide. -/
def storeWord (w : Nat) (m : Nat → Nat) (a v : Nat) : Nat → Nat :=
  fun x => if x = a then v % 2 ^ w else m x

/-- Modelled from the spec: the `Serializer` (not among the sources) holds a
snapshot record, an ordered stream of fields of fixed widths that round-trips
exactly.  A record is the list of the fields written, each with the kind of the
`put` that wrote it and the value of the member as it is (a `put` and the `get`
that reads it back are those of the member's own type). -/
inductive Field where
  | string (s : String)
  | byte (v : Nat)
  | short (v : Nat)
  | long (v : Nat)
  | double (v : Nat)
  | byteArray (l : List Nat)
  | intArray (l : List Nat)

/-- Modelled from the spec: the stream of a `Serializer`, the fields written so
far for an output stream, the fields still to be read for an input stream. -/
abbrev Serializer := List Field

namespace Serializer

/-- Modelled from the spec: `putString` appends a string field. -/
def putString (out : Serializer) (s : String) : Serializer := out ++ [Field.string s]

/-- Modelled from the spec: `putByte` appends a one-byte field. -/
def putByte (out : Serializer) (v : Nat) : Serializer := out ++ [Field.byte v]

/-- Modelled from the spec: `putShort` appends a 16-bit field. -/
def putShort (out : Serializer) (v : Nat) : Serializer := out ++ [Field.short v]

/-- Modelled from the spec: `putLong` appends a 64-bit field. -/
def putLong (out : Serializer) (v : Nat) : Serializer := out ++ [Field.long v]

/-- Modelled from the spec: `putDouble` appends a `double` field. -/
def putDouble (out : Serializer) (v : Nat) : Serializer := out ++ [Field.double v]

/-- Modelled from the spec: `putByteArray(array, size)` appends the first `size`
cells of a byte array. -/
def putByteArray (out : Serializer) (array : Nat → Nat) (size : Nat) : Serializer :=
  out ++ [Field.byteArray ((List.range size).map array)]

/-- Modelled from the spec: `putIntArray(array, size)` appends the first `size`
cells of an array of 32-bit words. -/
def putIntArray (out : Serializer) (array : Nat → Nat) (size : Nat) : Serializer :=
  out ++ [Field.intArray ((List.range size).map array)]

/-- Modelled from the spec: `getString` takes a string field from the stream;
`none` is the exception raised when the stream is exhausted or unreadable. -/
def getString : Serializer → Option (String × Serializer)
  | Field.string s :: rest => some (s, rest)
  | _ => none

/-- Modelled from the spec: `getByte`. -/
def getByte : Serializer → Option (Nat × Serializer)
  | Field.byte v :: rest => some (v, rest)
  | _ => none

/-- Modelled from the spec: `getShort`. -/
def getShort : Serializer → Option (Nat × Serializer)
  | Field.short v :: rest => some (v, rest)
  | _ => none

/-- Modelled from the spec: `getLong`. -/
def getLong : Serializer → Option (Nat × Serializer)
  | Field.long v :: rest => some (v, rest)
  | _ => none

/-- Modelled from the spec: `getDouble`. -/
def getDouble : Serializer → Option (Nat × Serializer)
  | Field.double v :: rest => some (v, rest)
  | _ => none

/-- Modelled from the spec: `getByteArray(array, size)` reads `size` bytes from
the stream into the array it is given, from the first cell on.  The result is
the list of the bytes it has stored (`fillArray` stores them) and the stream
afterwards; the stream is `none` when the read raises the exception: the field
is missing, or the record is cut inside the field, and then the bytes read
until the cut are in the array already. -/
def getByteArray (inp : Serializer) (size : Nat) : List Nat × Option Serializer :=
  match inp with
  | Field.byteArray l :: rest => if l.length = size then (l, some rest) else (l.take size, none)
  | _ => ([], none)

/-- Modelled from the spec: `getIntArray(array, size)`, as `getByteArray` for an
array of 32-bit words. -/
def getIntArray (inp : Serializer) (size : Nat) : List Nat × Option Serializer :=
  match inp with
  | Field.intArray l :: rest => if l.length = size then (l, some rest) else (l.take size, none)
  | _ => ([], none)

end Serializer

/-- The array `array` after its first `size` cells have been read from the list
`l`; the cells past them keep their contents.  A read that stored the bytes `l`
leaves the array `fillArray array l l.length`. -/
def fillArray (array : Nat → Nat) (l : List Nat) (size : Nat) : Nat → Nat :=
  fun i => if i < size then l.getD i 0 else array i

namespace CartridgeBUS

/-- The inherited accessor `Cartridge::bankLocked()`. -/
def bankLocked (c : CartridgeBUS) : Bool := c.myBankLocked

/-- The macro `BUS_STUFF_ON` (line 39). -/
def BUS_STUFF_ON (c : CartridgeBUS) : Bool := (c.myMode &&& 0x0F) == 0

/-- The macro `DIGITAL_AUDIO_ON` (line 40). -/
def DIGITAL_AUDIO_ON (c : CartridgeBUS) : Bool := (c.myMode &&& 0xF0) == 0

/-- The read `myProgramImage[i]`, that is `myImage[4096 + i]`. -/
def myProgramImage (c : CartridgeBUS) (i : Nat) : Nat := c.myImage (4096 + i)

/-- The read `myDisplayImage[i]`, that is `myBUSRAM[DSRAM + i]`. -/
def myDisplayImage (c : CartridgeBUS) (i : Nat) : Nat := c.myBUSRAM (DSRAM + i)

/-- Lines 435-452.  The loop over the pages only writes the page table of the
`System`, which no member function reads; it is not part of the device. -/
def bank (c : CartridgeBUS) (bank : Nat) : Bool × CartridgeBUS :=
  if c.bankLocked then (false, c)
  else (true, { c with myBankOffset := (bank <<< 12) % 65536, myBankChanged := true })

/-- Lines 455-458. -/
def getBank (c : CartridgeBUS) : Nat := c.myBankOffset >>> 12

/-- Lines 461-464. -/
def bankCount (_c : CartridgeBUS) : Nat := 7

/-- Lines 635-643. -/
def getDatastreamPointer (c : CartridgeBUS) (index : Nat) : Nat :=
  (c.myBUSRAM (DSxPTR + index * 4 + 0)
    + (c.myBUSRAM (DSxPTR + index * 4 + 1) <<< 8)
    + (c.myBUSRAM (DSxPTR + index * 4 + 2) <<< 16)
    + (c.myBUSRAM (DSxPTR + index * 4 + 3) <<< 24)) % 4294967296

/-- Lines 646-653. -/
def setDatastreamPointer (c : CartridgeBUS) (index value : Nat) : CartridgeBUS :=
  { c with myBUSRAM :=
      (store (store (store (store c.myBUSRAM
        (DSxPTR + index * 4 + 0) (value &&& 0xff))
        (DSxPTR + index * 4 + 1) ((value >>> 8) &&& 0xff))
        (DSxPTR + index * 4 + 2) ((value >>> 16) &&& 0xff))
        (DSxPTR + index * 4 + 3) ((value >>> 24) &&& 0xff)) }

/-- Lines 656-663. -/
def getDatastreamIncrement (c : CartridgeBUS) (index : Nat) : Nat :=
  (c.myBUSRAM (DSxINC + index * 4 + 0)
    + (c.myBUSRAM (DSxINC + index * 4 + 1) <<< 8)
    + (c.myBUSRAM (DSxINC + index * 4 + 2) <<< 16)
    + (c.myBUSRAM (DSxINC + index * 4 + 3) <<< 24)) % 4294967296

/-- Lines 666-673. -/
def getAddressMap (c : CartridgeBUS) (index : Nat) : Nat :=
  (c.myBUSRAM (DSMAPS + index * 4 + 0)
    + (c.myBUSRAM (DSMAPS + index * 4 + 1) <<< 8)
    + (c.myBUSRAM (DSMAPS + index * 4 + 2) <<< 16)
    + (c.myBUSRAM (DSMAPS + index * 4 + 3) <<< 24)) % 4294967296

/-- Lines 725-732. -/
def setAddressMap (c : CartridgeBUS) (index value : Nat) : CartridgeBUS :=
  { c with myBUSRAM :=
      (store (store (store (store c.myBUSRAM
        (DSMAPS + index * 4 + 0) (value &&& 0xff))
        (DSMAPS + index * 4 + 1) ((value >>> 8) &&& 0xff))
        (DSMAPS + index * 4 + 2) ((value >>> 16) &&& 0xff))
        (DSMAPS + index * 4 + 3) ((value >>> 24) &&& 0xff)) }

/-- Lines 676-703.  The subtraction is a `uInt32` subtraction. -/
def getWaveform (c : CartridgeBUS) (index : Nat) : Nat :=
  let result :=
    (c.myBUSRAM (WAVEFORM + index * 4 + 0)
      + (c.myBUSRAM (WAVEFORM + index * 4 + 1) <<< 8)
      + (c.myBUSRAM (WAVEFORM + index * 4 + 2) <<< 16)
      + (c.myBUSRAM (WAVEFORM + index * 4 + 3) <<< 24)) % 4294967296
  let result := (result + (4294967296 - 0x40000800)) % 4294967296
  if result ≥ 4096 then 0 else result

/-- Lines 706-716. -/
def getSample (c : CartridgeBUS) : Nat :=
  (c.myBUSRAM (WAVEFORM + 0)
    + (c.myBUSRAM (WAVEFORM + 1) <<< 8)
    + (c.myBUSRAM (WAVEFORM + 2) <<< 16)
    + (c.myBUSRAM (WAVEFORM + 3) <<< 24)) % 4294967296

/-- Lines 719-722. -/
def getWaveformSize (c : CartridgeBUS) (index : Nat) : Nat :=
  c.myMusicWaveformSize index

/-- Lines 735-753: the byte returned and the device afterwards.  The increment
is held in a `uInt16`. -/
def readFromDatastream (c : CartridgeBUS) (index : Nat) : Nat × CartridgeBUS :=
  let pointer := c.getDatastreamPointer index
  let increment := c.getDatastreamIncrement index % 65536
  let value := c.myDisplayImage (pointer >>> 20)
  let pointer := (pointer + (increment <<< 12)) % 4294967296
  (value, c.setDatastreamPointer index pointer)

/-- Lines 489-513: the overdrive byte and the device afterwards.  `map` is a
`uInt8`, `datastream` is a `uInt8`, `alldatastreams` a `uInt32`. -/
def busOverdrive (c : CartridgeBUS) (address : Nat) : Nat × CartridgeBUS :=
  let r : Nat × CartridgeBUS :=
    if address = c.myBusOverdriveAddress then
      let map := address &&& 0x7f
      if map ≤ 0x24 then
        let alldatastreams := c.getAddressMap map
        let datastream := alldatastreams &&& 0x0f
        let rd := c.readFromDatastream datastream
        let alldatastreams := alldatastreams >>> 4
        let alldatastreams := (alldatastreams ||| (datastream <<< 28)) % 4294967296
        (rd.1, rd.2.setAddressMap map alldatastreams)
      else (0xff, c)
    else (0xff, c)
  (r.1, { r.2 with myBusOverdriveAddress := 0xff })

/-- Lines 516-542: the value returned and the device afterwards.  The three
music arrays have three elements each and the source uses `value1` as the index
without a check; an access with `value1` of 3 or more is outside the array and
has no meaning in the source: the result is then `none`. -/
def thumbCallback (c : CartridgeBUS) (function value1 value2 : Nat) :
    Option (Nat × CartridgeBUS) :=
  if function = 0 then
    if value1 < 3 then
      some (0, { c with myMusicFrequencies := storeWord 32 c.myMusicFrequencies value1 value2 })
    else none
  else if function = 1 then
    if value1 < 3 then
      some (0, { c with myMusicCounters := storeWord 32 c.myMusicCounters value1 0 })
    else none
  else if function = 2 then
    if value1 < 3 then some (c.myMusicCounters value1, c) else none
  else if function = 3 then
    if value1 < 3 then
      some (0, { c with myMusicWaveformSize := storeWord 8 c.myMusicWaveformSize value1 value2 })
    else none
  else some (0, c)

/-- The device after the callbacks of one interpreter run, made in order;
`none` when one of them accesses a music array outside its elements. -/
def runCallbacks : List (Nat × Nat × Nat) → CartridgeBUS → Option CartridgeBUS
  | [], d => some d
  | cb :: l, d =>
    match d.thumbCallback cb.1 cb.2.1 cb.2.2 with
    | some r => runCallbacks l r.2
    | none => none

/-- Lines 139-154.  `cycles` is the `uInt32` difference of two `uInt64`
counters; the double arithmetic is `sys.oscClocks`. -/
def updateMusicModeDataFetchers (sys : System) (c : CartridgeBUS) : CartridgeBUS :=
  let cycles := ((sys.cycles + (18446744073709551616 - c.myAudioCycles % 18446744073709551616))
    % 18446744073709551616) % 4294967296
  let clk := sys.oscClocks cycles c.myFractionalClocks
  let wholeClocks := clk.1 % 4294967296
  let c := { c with myAudioCycles := sys.cycles, myFractionalClocks := clk.2 }
  if wholeClocks > 0 then
    { c with myMusicCounters := fun x =>
        if x ≤ 2 then (c.myMusicCounters x + c.myMusicFrequencies x * wholeClocks) % 4294967296
        else c.myMusicCounters x }
  else c

/-- The two's-complement reading `Int32(x)` of a 32-bit pattern. -/
def toInt32 (x : Nat) : Int :=
  if x % 4294967296 < 2147483648 then (x % 4294967296 : Nat)
  else ((x % 4294967296 : Nat) : Int) - 4294967296

/-- Lines 166-169: the interpreter run that `callFunction` starts, for the
cycles elapsed since the last run. -/
def armRun (sys : System) (c : CartridgeBUS) : ThumbRun :=
  sys.thumbRun { c with myARMCycles := sys.cycles }
    (toInt32
      ((sys.cycles + (18446744073709551616 - c.myARMCycles % 18446744073709551616))
        % 18446744073709551616))

/-- Lines 157-183: the fatal error surfaced (if any) and the device afterwards.
The interpreter writes the RAM it was given and calls back into
`thumbCallback`; a fault is swallowed in autodetect mode and surfaced as a
fatal error otherwise.  When a callback of the run accesses a music array
outside its elements the source gives the run no meaning, and the device
afterwards is the unconstrained `stray` of the run. -/
def callFunction (sys : System) (c : CartridgeBUS) (value : Nat) : Option String × CartridgeBUS :=
  if value = 254 ∨ value = 255 then
    let cycles := toInt32
      ((sys.cycles + (18446744073709551616 - c.myARMCycles % 18446744073709551616))
        % 18446744073709551616)
    let c := { c with myARMCycles := sys.cycles }
    let run := sys.thumbRun c cycles
    let c :=
      match runCallbacks run.callbacks { c with myBUSRAM := run.ram } with
      | some d => d
      | none => run.stray
    let fatal : Option String :=
      match run.fault with
      | none => none
      | some e => if sys.autodetectMode then none else some e
    (fatal, c)
  else (none, c)

/-- The shift `x >> n` of a `uInt32` by the count `n` (a `uInt8` waveform
size).  For a count of 32 or more the source gives the shift no meaning and the
value is the unconstrained `wideShift` of the system, as a `uInt32`. -/
def shiftRight32 (sys : System) (x n : Nat) : Nat :=
  if n < 32 then x >>> n else sys.wideShift x n % 4294967296

/-- Lines 245-329 of `peek`: the `switch` over the masked address, from the
byte read from ROM to the byte returned and the device afterwards.  The index
of a waveform read is a `uInt32` sum, taken modulo `2^32`; the shift of a music
counter by a waveform size is `shiftRight32`. -/
def peekSwitch (sys : System) (c : CartridgeBUS) (address peekvalue : Nat) :
    Nat × CartridgeBUS :=
  if address = 0xFEE then
    let c := c.updateMusicModeDataFetchers sys
    if c.DIGITAL_AUDIO_ON then
      let sampleaddress := (c.getSample + (c.myMusicCounters 0 >>> 21)) % 4294967296
      let peekvalue :=
        if sampleaddress < 0x8000 then c.myImage sampleaddress
        else if sampleaddress ≥ 0x40000000 ∧ sampleaddress < 0x40002000 then
          c.myBUSRAM (sampleaddress - 0x40000000)
        else 0
      let peekvalue :=
        if c.myMusicCounters 0 &&& (1 <<< 20) = 0 then peekvalue >>> 4 else peekvalue
      (peekvalue &&& 0x0f, c)
    else
      let i :=
        (c.myDisplayImage
            ((c.getWaveform 0
              + shiftRight32 sys (c.myMusicCounters 0) (c.myMusicWaveformSize 0)) % 4294967296)
          + c.myDisplayImage
            ((c.getWaveform 1
              + shiftRight32 sys (c.myMusicCounters 1) (c.myMusicWaveformSize 1)) % 4294967296)
          + c.myDisplayImage
            ((c.getWaveform 2
              + shiftRight32 sys (c.myMusicCounters 2) (c.myMusicWaveformSize 2)) % 4294967296))
        % 4294967296
      (i % 256, c)
  else if address = 0xFEF then c.readFromDatastream COMMSTREAM
  else if address = 0xFF0 ∨ address = 0xFF1 ∨ address = 0xFF2 ∨ address = 0xFF3 then
    (peekvalue, c)
  else if address = 0xFF5 then (peekvalue, (c.bank 0).2)
  else if address = 0x0FF6 then (peekvalue, (c.bank 1).2)
  else if address = 0x0FF7 then (peekvalue, (c.bank 2).2)
  else if address = 0x0FF8 then (peekvalue, (c.bank 3).2)
  else if address = 0x0FF9 then (peekvalue, (c.bank 4).2)
  else if address = 0x0FFA then (peekvalue, (c.bank 5).2)
  else if address = 0x0FFB then (peekvalue, (c.bank 6).2)
  else (peekvalue, c)

/-- Lines 186-339. -/
def peek (sys : System) (c : CartridgeBUS) (address : Nat) : PeekResult :=
  if address &&& 0x1000 = 0 then
    let lowAddress := address &&& 0x3ff
    if lowAddress &&& 0x80 ≠ 0 then ⟨sys.m6532Peek address, some Chip.m6532, c⟩
    else if lowAddress &&& 0x200 = 0 then ⟨sys.tiaPeek address, some Chip.tia, c⟩
    else ⟨0, none, c⟩
  else
    let address := address &&& 0x0FFF
    let peekvalue := c.myProgramImage (c.myBankOffset + address)
    if c.bankLocked then ⟨peekvalue, none, c⟩
    else if c.myFastJumpActive ≠ 0 ∧ c.myJMPoperandAddress = address then
      let c := { c with
        myFastJumpActive := (c.myFastJumpActive + 255) % 256,
        myJMPoperandAddress := (c.myJMPoperandAddress + 1) % 65536 }
      let pointer := c.getDatastreamPointer JUMPSTREAM
      let value := c.myDisplayImage (pointer >>> 20)
      let pointer := (pointer + 0x100000) % 4294967296
      ⟨value, none, c.setDatastreamPointer JUMPSTREAM pointer⟩
    else if c.BUS_STUFF_ON = true ∧ peekvalue = 0x4C
        ∧ c.myProgramImage (c.myBankOffset + address + 1) = 0
        ∧ c.myProgramImage (c.myBankOffset + address + 2) = 0 then
      ⟨peekvalue, none, { c with myFastJumpActive := 2, myJMPoperandAddress := address + 1 }⟩
    else
      let c := { c with myJMPoperandAddress := 0 }
      let c :=
        if c.BUS_STUFF_ON = true ∧ c.mySTYZeroPageAddress = address then
          { c with myBusOverdriveAddress := peekvalue }
        else c
      let c := { c with mySTYZeroPageAddress := 0 }
      let r := peekSwitch sys c address peekvalue
      let peekvalue := r.1
      let c := r.2
      let c :=
        if c.BUS_STUFF_ON = true ∧ peekvalue = 0x84 then
          { c with mySTYZeroPageAddress := address + 1 }
        else c
      ⟨peekvalue, none, c⟩

/-- Lines 237-243 of `peek`: the JMP operand address is cleared, the byte read
is latched as the overdrive address when the read is at the address recorded
for the operand of an `STY`, and that address is cleared. -/
def peekLatch (c : CartridgeBUS) (address peekvalue : Nat) : CartridgeBUS :=
  let c := { c with myJMPoperandAddress := 0 }
  let c :=
    if c.BUS_STUFF_ON = true ∧ c.mySTYZeroPageAddress = address then
      { c with myBusOverdriveAddress := peekvalue }
    else c
  { c with mySTYZeroPageAddress := 0 }

/-- Lines 237-335 of `peek`: the last branch of `peek`, reached by a window
read of a device that is not bank-locked when the read is neither redirected
to the jump datastream nor arms a fast jump.  It repeats that branch under a
name of its own, so that theorems can refer to it. -/
def peekTail (sys : System) (c : CartridgeBUS) (address peekvalue : Nat) : PeekResult :=
  let c := c.peekLatch address peekvalue
  let r := peekSwitch sys c address peekvalue
  let peekvalue := r.1
  let c := r.2
  let c :=
    if c.BUS_STUFF_ON = true ∧ peekvalue = 0x84 then
      { c with mySTYZeroPageAddress := address + 1 }
    else c
  ⟨peekvalue, none, c⟩

/-- Lines 342-432.  `value` is a `uInt8`, `pointer` a `uInt32`. -/
def poke (sys : System) (c : CartridgeBUS) (address value : Nat) : PokeResult :=
  if address &&& 0x1000 = 0 then
    let od := c.busOverdrive address
    let value := value &&& od.1
    let lowAddress := address &&& 0x3ff
    if lowAddress &&& 0x80 ≠ 0 then ⟨false, some (Chip.m6532, address, value), none, od.2⟩
    else if lowAddress &&& 0x200 = 0 then ⟨false, some (Chip.tia, address, value), none, od.2⟩
    else ⟨false, none, none, od.2⟩
  else
    let address := address &&& 0x0FFF
    if address = 0xFEE ∨ address = 0xFEF then ⟨false, none, none, c⟩
    else if address = 0xFF0 then
      let pointer := c.getDatastreamPointer COMMSTREAM
      let c := { c with myBUSRAM := store c.myBUSRAM (DSRAM + (pointer >>> 20)) value }
      let pointer := (pointer + 0x100000) % 4294967296
      ⟨false, none, none, c.setDatastreamPointer COMMSTREAM pointer⟩
    else if address = 0xFF1 then
      let pointer := c.getDatastreamPointer COMMSTREAM
      let pointer := (pointer <<< 8) % 4294967296
      let pointer := pointer &&& 0xf0000000
      let pointer := (pointer ||| (value <<< 20)) % 4294967296
      ⟨false, none, none, c.setDatastreamPointer COMMSTREAM pointer⟩
    else if address = 0xFF2 then ⟨false, none, none, { c with myMode := value % 256 }⟩
    else if address = 0xFF3 then
      let r := c.callFunction sys value
      ⟨false, none, r.1, r.2⟩
    else if address = 0xFF5 then ⟨false, none, none, (c.bank 0).2⟩
    else if address = 0x0FF6 then ⟨false, none, none, (c.bank 1).2⟩
    else if address = 0x0FF7 then ⟨false, none, none, (c.bank 2).2⟩
    else if address = 0x0FF8 then ⟨false, none, none, (c.bank 3).2⟩
    else if address = 0x0FF9 then ⟨false, none, none, (c.bank 4).2⟩
    else if address = 0x0FFA then ⟨false, none, none, (c.bank 5).2⟩
    else if address = 0x0FFB then ⟨false, none, none, (c.bank 6).2⟩
    else ⟨false, none, none, c⟩

/-- Lines 467-479: the boolean returned and the device afterwards. -/
def patch (c : CartridgeBUS) (address value : Nat) : Bool × CartridgeBUS :=
  let address := address &&& 0x0FFF
  if address ≥ 0x0040 then
    (true, { c with
      myImage := store c.myImage (4096 + (c.myBankOffset + (address &&& 0x0FFF))) value,
      myBankChanged := true })
  else (false, c)

/-- Lines 92-111.  The `memcpy` copies the first `0x0800` bytes of the image
into the RAM. -/
def setInitialState (c : CartridgeBUS) : CartridgeBUS :=
  { c with
    myBUSRAM := fun i => if i < 0x0800 then c.myImage i else c.myBUSRAM i
    myMusicWaveformSize := fun i => if i < 3 then 27 else c.myMusicWaveformSize i
    myStartBank := 6
    myMode := 0xFF
    myBankOffset := 0
    myBusOverdriveAddress := 0
    mySTYZeroPageAddress := 0
    myJMPoperandAddress := 0
    myFastJumpActive := 0 }

/-- Lines 77-89.  `initializeRAM` (of the base class `Cartridge`, not among the
sources) fills the 6 KiB of RAM from `myBUSRAM + 2048` on with bytes chosen by
the settings, zero or random; they are the argument `fill`. -/
def reset (fill : Nat → Nat) (c : CartridgeBUS) : CartridgeBUS :=
  let c := { c with
    myBUSRAM := fun i => if 2048 ≤ i ∧ i < 8192 then fill i % 256 else c.myBUSRAM i }
  let c := { c with myAudioCycles := 0, myARMCycles := 0, myFractionalClocks := 0 }
  let c := c.setInitialState
  (c.bank c.myStartBank).2

/-- The accessor `name()`, declared in `CartBUS.hxx` (not among the sources); as
in the sibling class, it returns the name of the class. -/
def name (_c : CartridgeBUS) : String := "CartridgeBUS"

/-- Lines 545-585: the boolean returned and the stream afterwards.  No `put` of
the modelled stream fails, so the `catch` branch is never taken. -/
def save (c : CartridgeBUS) (out : Serializer) : Bool × Serializer :=
  let out := out.putString c.name
  let out := out.putShort c.myBankOffset
  let out := out.putByteArray c.myBUSRAM 8192
  let out := out.putShort c.myBusOverdriveAddress
  let out := out.putShort c.mySTYZeroPageAddress
  let out := out.putShort c.myJMPoperandAddress
  let out := out.putLong c.myAudioCycles
  let out := out.putDouble c.myFractionalClocks
  let out := out.putLong c.myARMCycles
  let out := out.putIntArray c.myMusicCounters 3
  let out := out.putIntArray c.myMusicFrequencies 3
  let out := out.putByteArray c.myMusicWaveformSize 3
  let out := out.putByte c.myMode
  let out := out.putByte c.myFastJumpActive
  (true, out)

/-- Lines 588-632: the boolean returned and the device afterwards.  A `get` that
fails raises the exception caught at line 622: `load` returns false with the
members assigned so far.  An array member is the buffer the stream reads into
(lines 599, 612-614), so it holds the bytes read until then even when the read
fails. -/
def load (c : CartridgeBUS) (inp : Serializer) : Bool × CartridgeBUS :=
  match inp.getString with
  | none => (false, c)
  | some (tag, inp) =>
    if tag ≠ c.name then (false, c)
    else
      match inp.getShort with
      | none => (false, c)
      | some (v, inp) =>
        let c := { c with myBankOffset := v }
        let r := inp.getByteArray 8192
        let c := { c with myBUSRAM := fillArray c.myBUSRAM r.1 r.1.length }
        match r.2 with
        | none => (false, c)
        | some inp =>
          match inp.getShort with
          | none => (false, c)
          | some (v, inp) =>
            let c := { c with myBusOverdriveAddress := v }
            match inp.getShort with
            | none => (false, c)
            | some (v, inp) =>
              let c := { c with mySTYZeroPageAddress := v }
              match inp.getShort with
              | none => (false, c)
              | some (v, inp) =>
                let c := { c with myJMPoperandAddress := v }
                match inp.getLong with
                | none => (false, c)
                | some (v, inp) =>
                  let c := { c with myAudioCycles := v }
                  match inp.getDouble with
                  | none => (false, c)
                  | some (v, inp) =>
                    let c := { c with myFractionalClocks := v }
                    match inp.getLong with
                    | none => (false, c)
                    | some (v, inp) =>
                      let c := { c with myARMCycles := v }
                      let r := inp.getIntArray 3
                      let c :=
                        { c with myMusicCounters := fillArray c.myMusicCounters r.1 r.1.length }
                      match r.2 with
                      | none => (false, c)
                      | some inp =>
                        let r := inp.getIntArray 3
                        let c :=
                          { c with
                            myMusicFrequencies :=
                              fillArray c.myMusicFrequencies r.1 r.1.length }
                        match r.2 with
                        | none => (false, c)
                        | some inp =>
                          let r := inp.getByteArray 3
                          let c :=
                            { c with
                              myMusicWaveformSize :=
                                fillArray c.myMusicWaveformSize r.1 r.1.length }
                          match r.2 with
                          | none => (false, c)
                          | some inp =>
                            match inp.getByte with
                            | none => (false, c)
                            | some (v, inp) =>
                              let c := { c with myMode := v }
                              match inp.getByte with
                              | none => (false, c)
                              | some (v, _) =>
                                let c := { c with myFastJumpActive := v }
                                (true, (c.bank (c.myBankOffset >>> 12)).2)

end CartridgeBUS

/-! ## Reachable states and snapshots -/

/-- The write `poke(address, value)` has a meaning in the source: when it is a
write of 254 or 255 to CALLFN (window offset `0xFF3`), no callback of the
interpreter run it starts accesses a music array outside its elements.  A write
that starts no interpreter run satisfies it. -/
def pokeDefined (sys : System) (c : CartridgeBUS) (address value : Nat) : Prop :=
  address &&& 0x1000 ≠ 0 → address &&& 0x0FFF = 0xFF3 → (value = 254 ∨ value = 255) →
    (CartridgeBUS.runCallbacks (CartridgeBUS.armRun sys c).callbacks
      { c with myARMCycles := sys.cycles, myBUSRAM := (CartridgeBUS.armRun sys c).ram }).isSome
      = true

instance (sys : System) (c : CartridgeBUS) (address value : Nat) :
    Decidable (pokeDefined sys c address value) := by
  unfold pokeDefined
  infer_instance

/-- The devices `c` and `d` have the same bank offset, lock flag and
`bankChanged` flag. -/
def sameBank (c d : CartridgeBUS) : Prop :=
  d.myBankOffset = c.myBankOffset ∧ d.myBankLocked = c.myBankLocked
    ∧ d.myBankChanged = c.myBankChanged

/-- The condition under which `peek(address)` is redirected to the jump
datastream (lines 188, 205, 209-210): a window address, a device that is not
bank-locked, a fast-jump counter other than zero and the operand address equal
to the masked address. -/
def fastJumpRedirects (c : CartridgeBUS) (address : Nat) : Prop :=
  address &&& 0x1000 ≠ 0 ∧ c.bankLocked = false
    ∧ c.myFastJumpActive ≠ 0 ∧ c.myJMPoperandAddress = address &&& 0x0FFF

instance (c : CartridgeBUS) (address : Nat) : Decidable (fastJumpRedirects c address) := by
  unfold fastJumpRedirects
  infer_instance

/-! ## Display-RAM accesses through a datastream pointer -/

/-- The index into `myBUSRAM` of the access `myDisplayImage[pointer >> 20]`
made through the pointer of the stream `index` (lines 219, 370 and 749). -/
def datastreamAccessIndex (c : CartridgeBUS) (index : Nat) : Nat :=
  DSRAM + (c.getDatastreamPointer index >>> 20)

/-! ## The rotation of an address-map entry -/

/-- The right rotation of a 32-bit word by one nybble: the lowest four bits
move to the top, the other twenty-eight move down by four. -/
def rotateNybble (x : Nat) : Nat := x / 16 + (x % 16) * 268435456

/-- The device after `n` overdriven writes to `address`: before each write the
overdrive address is `address` (as after the operand fetch of an `STY`, line
241), then `busOverdrive(address)` runs. -/
def overdriveTimes (address : Nat) : Nat → CartridgeBUS → CartridgeBUS
  | 0, c => c
  | n + 1, c =>
    overdriveTimes address n
      (CartridgeBUS.busOverdrive { c with myBusOverdriveAddress := address } address).2

/-- The datastreams those `n` overdriven writes read from, in order: each
write uses the lowest nybble of the address-map entry `address & 0x7f` at that
moment (line 500). -/
def overdriveStreams (address : Nat) : Nat → CartridgeBUS → List Nat
  | 0, _ => []
  | n + 1, c =>
    (c.getAddressMap (address &&& 0x7f) &&& 0x0f)
      :: overdriveStreams address n
          (CartridgeBUS.busOverdrive { c with myBusOverdriveAddress := address } address).2

/-! ## Sequences of datastream reads -/

/-- The fixed-point value held in the pointer of stream `index`
(`PPPFF---`, lines 737-745): the integer position `pointer >> 20`, which is
the display-RAM index `readFromDatastream` reads at, times 256, plus the eight
fractional bits below it. -/
def fixedPointValue (c : CartridgeBUS) (index : Nat) : Nat :=
  (c.getDatastreamPointer index >>> 20) * 256
    + ((c.getDatastreamPointer index >>> 12) &&& 0xFF)

/-- The device after `n` successive calls `readFromDatastream(index)`. -/
def readFromDatastreamTimes (index : Nat) : Nat → CartridgeBUS → CartridgeBUS
  | 0, c => c
  | n + 1, c => readFromDatastreamTimes index n (c.readFromDatastream index).2

/-- The increments those `n` calls apply, in order: each call applies the
`uInt16 increment` it reads from the increment field of the stream at that
moment. -/
def appliedIncrements (index : Nat) : Nat → CartridgeBUS → List Nat
  | 0, _ => []
  | n + 1, c =>
    (c.getDatastreamIncrement index % 65536)
      :: appliedIncrements index n (c.readFromDatastream index).2

/-! ## Concrete devices used as witnesses and counterexamples -/

/-- A device in its power-on configuration (`setInitialState` followed by
`bank(myStartBank)`) over an all-zero image and RAM: bank 6, mode `0xFF`. -/
def zeroCart : CartridgeBUS where
  myImage := fun _ => 0
  myBUSRAM := fun _ => 0
  myBankOffset := 0x6000
  myBankLocked := false
  myBankChanged := true
  myStartBank := 6
  myBusOverdriveAddress := 0
  mySTYZeroPageAddress := 0
  myJMPoperandAddress := 0
  myAudioCycles := 0
  myARMCycles := 0
  myFractionalClocks := 0
  myMusicCounters := fun _ => 0
  myMusicFrequencies := fun _ => 0
  myMusicWaveformSize := fun _ => 27
  myMode := 0xFF
  myFastJumpActive := 0

/-- The device `zeroCart` locked for inspection. -/
def lockedCart : CartridgeBUS := { zeroCart with myBankLocked := true }

/-- A device whose stream 0 has the pointer `0xFFFFF000` (integer position
`0xFFF`, fraction `0xFF`) and the increment 1. -/
def wrapCart : CartridgeBUS :=
  { zeroCart with
    myBUSRAM := fun x =>
      if x = 0x06D9 then 0xF0 else if x = 0x06DA then 0xFF else if x = 0x06DB then 0xFF
      else if x = 0x0720 then 1 else 0 }

/-- The fast-jump scenario: bank 6, fast fetch enabled (mode 0), `JMP $0000`
(`4C 00 00`) at the window address `$1100`, and the jump datastream (17) at
display position 0, where the display RAM holds `0x11`, `0x22`; its increment
field holds `0x0100`. -/
def jumpCart : CartridgeBUS :=
  { zeroCart with
    myImage := fun x => if x = 4096 + 0x6000 + 0x100 then 0x4C else 0
    myBUSRAM := fun x =>
      if x = 0x0800 then 0x11 else if x = 0x0801 then 0x22 else if x = 0x0765 then 1 else 0
    myMode := 0 }

/-- The fast-jump scenario at the end of the bank window: bank 0, fast fetch
enabled, `0x4C` at the window address `$1FFE` followed by zero bytes, the jump
datastream as in `jumpCart`. -/
def edgeCart : CartridgeBUS :=
  { zeroCart with
    myImage := fun x => if x = 4096 + 0x0FFE then 0x4C else 0
    myBUSRAM := fun x => if x = 0x0800 then 0x11 else if x = 0x0801 then 0x22 else 0
    myBankOffset := 0
    myMode := 0 }

/-- A device in bank 6 with fast fetch enabled whose ROM holds `JMP $0000`
(`4C 00 00`) at the bank hotspot `$1FF5`. -/
def jumpAtHotspotCart : CartridgeBUS :=
  { zeroCart with
    myImage := fun x => if x = 4096 + 0x6000 + 0x0FF5 then 0x4C else 0
    myMode := 0 }

/-- A device in bank 6 with a fast jump pending whose next operand address is
the bank hotspot `$1FF5`. -/
def jumpPendingCart : CartridgeBUS :=
  { zeroCart with myFastJumpActive := 2, myJMPoperandAddress := 0x0FF5 }

/-- The overdrive scenario: bank 6, bus stuffing enabled (mode 0), `STY $02`
(`84 02`) at the window address `$1100`; the address-map entry 2 names the
datastream 3, whose pointer is at display position 0, where the display RAM
holds `0x7F`, and whose increment is `0x0100`. -/
def overdriveCart : CartridgeBUS :=
  { zeroCart with
    myImage := fun x =>
      if x = 4096 + 0x6000 + 0x100 then 0x84 else if x = 4096 + 0x6000 + 0x101 then 0x02 else 0
    myBUSRAM := fun x =>
      if x = 0x0768 then 3 else if x = 0x0800 then 0x7F else if x = 0x072D then 1 else 0
    myMode := 0 }

/-- The device `overdriveCart` with the overdrive armed for the address 2. -/
def armedCart : CartridgeBUS := { overdriveCart with myBusOverdriveAddress := 2 }

/-- The device `zeroCart` with music-channel accumulators and frequencies
other than zero. -/
def tunedCart : CartridgeBUS :=
  { zeroCart with myMusicCounters := fun _ => 1, myMusicFrequencies := fun _ => 1 }

/-- A device in bank 6 with fast fetch enabled whose image ends with the byte
`0x4C`, at the index `0x7FFF` (the window address `$1FFF` of bank 6). -/
def lastByteCart : CartridgeBUS :=
  { zeroCart with
    myImage := fun x => if x = 0x7FFF then 0x4C else 0
    myMode := 0 }

/-- The device `lastByteCart` with another value in the cell past the 32768
bytes of the image. -/
def lastByteCartPast : CartridgeBUS :=
  { zeroCart with
    myImage := fun x => if x = 0x7FFF then 0x4C else if x = 0x8000 then 1 else 0
    myMode := 0 }

/-- The device `edgeCart` with another value in the first byte of bank 1, the
image index `4096 + 0x1000`. -/
def edgeCartNext : CartridgeBUS :=
  { zeroCart with
    myImage := fun x => if x = 4096 + 0x0FFE then 0x4C else if x = 4096 + 0x1000 then 1 else 0
    myBUSRAM := fun x => if x = 0x0800 then 0x11 else if x = 0x0801 then 0x22 else 0
    myBankOffset := 0
    myMode := 0 }

/-- A system in which no cycle has elapsed, the chips read as zero and the
interpreter does nothing. -/
def idleSystem : System where
  cycles := 0
  autodetectMode := false
  m6532Peek := fun _ => 0
  tiaPeek := fun _ => 0
  oscClocks := fun _ f => (0, f)
  thumbRun := fun c _ => ⟨c.myBUSRAM, [], none, c⟩
  wideShift := fun _ _ => 0

/-- A system whose interpreter raises a runtime fault on every run. -/
def faultySystem : System :=
  { idleSystem with thumbRun := fun c _ => ⟨c.myBUSRAM, [], some "fault", c⟩ }

/-! ## Case analysis on a conditional -/

theorem ite_cases {α : Type} (P : α → Prop) {p : Prop} [Decidable p] {a b : α}
    (ha : p → P a) (hb : ¬ p → P b) : P (if p then a else b) := by
  by_cases h : p
  · rw [if_pos h]; exact ha h
  · rw [if_neg h]; exact hb h

/-! ## Bank selection -/

theorem shl12_shr12 (n : Nat) : ((n <<< 12) % 65536) >>> 12 = n % 16 := by
  rw [Nat.shiftLeft_eq, Nat.shiftRight_eq_div_pow]
  norm_num
  omega

/-- Claim C1: on a device that is not bank-locked, `bank(b)` with a valid bank
index `b < bankCount() = 7` returns true, and `getBank()` then returns `b`. -/
theorem bank_valid_getBank (c : CartridgeBUS) (b : Nat)
    (hb : b < c.bankCount) (hl : c.bankLocked = false) :
    c.bankCount = 7 ∧ (c.bank b).1 = true ∧ (c.bank b).2.getBank = b := by
  have hb7 : b < 7 := hb
  refine ⟨rfl, ?_, ?_⟩
  · simp [CartridgeBUS.bank, hl]
  · simp only [CartridgeBUS.bank, hl, CartridgeBUS.getBank]
    simp only [Bool.false_eq_true, if_false]
    rw [shl12_shr12]
    omega

theorem bank_valid_getBank_witness :
    zeroCart.bankCount = 7 ∧ (zeroCart.bank 3).1 = true ∧ (zeroCart.bank 3).2.getBank = 3 :=
  bank_valid_getBank zeroCart 3 (by decide) rfl

/-- Claim C3: on a bank-locked device `bank(n)` returns false for every
argument and changes nothing: the device afterwards is the device before, so
`getBank()` returns the same value. -/
theorem bank_locked_noop (c : CartridgeBUS) (n : Nat) (hl : c.bankLocked = true) :
    (c.bank n).1 = false ∧ (c.bank n).2 = c ∧ (c.bank n).2.getBank = c.getBank := by
  simp [CartridgeBUS.bank, hl]

theorem bank_locked_noop_witness :
    (lockedCart.bank 2).1 = false ∧ (lockedCart.bank 2).2 = lockedCart
      ∧ (lockedCart.bank 2).2.getBank = lockedCart.getBank :=
  bank_locked_noop lockedCart 2 rfl

/-- Claim C4 as stated fails: on the unlocked device `zeroCart` (bank 6) the
out-of-range call `bank(7)` does not return false, and `getBank()` no longer
returns the bank that was active. -/
theorem bank_out_of_range_counterexample :
    7 ≥ zeroCart.bankCount ∧ zeroCart.bankLocked = false ∧ zeroCart.getBank = 6
      ∧ (zeroCart.bank 7).1 = true ∧ (zeroCart.bank 7).2.getBank = 7
      ∧ ¬ ((zeroCart.bank 7).1 = false ∧ (zeroCart.bank 7).2.getBank = zeroCart.getBank) := by
  decide

/-- Claim C4, amended: `bank` performs no range check.  On a device that is not
bank-locked `bank(n)` returns true for every `n`, also for `n ≥ bankCount()`,
and `getBank()` then returns `n mod 16` (the offset `n << 12` is kept in 16
bits), which is `n` itself for `n < 16`. -/
theorem bank_unchecked (c : CartridgeBUS) (n : Nat) (hl : c.bankLocked = false) :
    (c.bank n).1 = true ∧ (c.bank n).2.getBank = n % 16 := by
  constructor
  · simp [CartridgeBUS.bank, hl]
  · simp only [CartridgeBUS.bank, hl, CartridgeBUS.getBank]
    simp only [Bool.false_eq_true, if_false]
    exact shl12_shr12 n

theorem bank_unchecked_witness :
    (zeroCart.bank 9).1 = true ∧ (zeroCart.bank 9).2.getBank = 9 % 16 :=
  bank_unchecked zeroCart 9 rfl

/-! ## Reads of a bank-locked device -/

/-- Claim C5: on a bank-locked device a read of a window address (bit 12 set)
returns the literal ROM byte of the current bank at `a & 0x0FFF`, hands the
call to no chip and leaves the whole device as it was, so a repeated read
returns the same byte. -/
theorem peek_locked_pure (sys sys2 : System) (c : CartridgeBUS) (a : Nat)
    (hl : c.bankLocked = true) (ha : a &&& 0x1000 ≠ 0) :
    (c.peek sys a).value = c.myImage (4096 + (c.myBankOffset + (a &&& 0x0FFF)))
      ∧ (c.peek sys a).cart = c
      ∧ ((c.peek sys a).cart.peek sys2 a).value = (c.peek sys a).value := by
  simp [CartridgeBUS.peek, ha, hl, CartridgeBUS.myProgramImage]

theorem peek_locked_pure_witness :
    (lockedCart.peek idleSystem 0x1FF5).value
        = lockedCart.myImage (4096 + (lockedCart.myBankOffset + (0x1FF5 &&& 0x0FFF)))
      ∧ (lockedCart.peek idleSystem 0x1FF5).cart = lockedCart
      ∧ ((lockedCart.peek idleSystem 0x1FF5).cart.peek idleSystem 0x1FF5).value
        = (lockedCart.peek idleSystem 0x1FF5).value :=
  peek_locked_pure idleSystem idleSystem lockedCart 0x1FF5 rfl (by decide)

/-! ## Writes to a bank-locked device -/

theorem setDatastreamPointer_myBankOffset (c : CartridgeBUS) (i v : Nat) :
    (c.setDatastreamPointer i v).myBankOffset = c.myBankOffset := rfl

theorem setAddressMap_myBankOffset (c : CartridgeBUS) (i v : Nat) :
    (c.setAddressMap i v).myBankOffset = c.myBankOffset := rfl

theorem readFromDatastream_myBankOffset (c : CartridgeBUS) (i : Nat) :
    (c.readFromDatastream i).2.myBankOffset = c.myBankOffset := rfl

theorem busOverdrive_myBankOffset (c : CartridgeBUS) (address : Nat) :
    (c.busOverdrive address).2.myBankOffset = c.myBankOffset := by
  unfold CartridgeBUS.busOverdrive
  dsimp only
  split_ifs <;> rfl

theorem thumbCallback_some_keeps (c : CartridgeBUS) (f v1 v2 : Nat) (r : Nat × CartridgeBUS)
    (h : c.thumbCallback f v1 v2 = some r) :
    r.2.myBankOffset = c.myBankOffset ∧ r.2.myBankLocked = c.myBankLocked
      ∧ r.2.myBankChanged = c.myBankChanged
      ∧ r.2.myBusOverdriveAddress = c.myBusOverdriveAddress := by
  unfold CartridgeBUS.thumbCallback at h
  split_ifs at h <;>
    (injection h with h
     subst h
     exact ⟨rfl, rfl, rfl, rfl⟩)

theorem runCallbacks_some_keeps (l : List (Nat × Nat × Nat)) (d e : CartridgeBUS)
    (h : CartridgeBUS.runCallbacks l d = some e) :
    e.myBankOffset = d.myBankOffset ∧ e.myBankLocked = d.myBankLocked
      ∧ e.myBankChanged = d.myBankChanged
      ∧ e.myBusOverdriveAddress = d.myBusOverdriveAddress := by
  induction l generalizing d with
  | nil =>
    unfold CartridgeBUS.runCallbacks at h
    injection h with h
    subst h
    exact ⟨rfl, rfl, rfl, rfl⟩
  | cons cb l ih =>
    unfold CartridgeBUS.runCallbacks at h
    cases hr : d.thumbCallback cb.1 cb.2.1 cb.2.2 with
    | none =>
      rw [hr] at h
      exact Option.noConfusion h
    | some r =>
      rw [hr] at h
      obtain ⟨a1, a2, a3, a4⟩ := thumbCallback_some_keeps d _ _ _ r hr
      obtain ⟨b1, b2, b3, b4⟩ := ih r.2 h
      exact ⟨b1.trans a1, b2.trans a2, b3.trans a3, b4.trans a4⟩

theorem callFunction_keeps (sys : System) (c : CartridgeBUS) (value : Nat)
    (h : (value = 254 ∨ value = 255) →
      (CartridgeBUS.runCallbacks (CartridgeBUS.armRun sys c).callbacks
        { c with myARMCycles := sys.cycles, myBUSRAM := (CartridgeBUS.armRun sys c).ram }).isSome
        = true) :
    (c.callFunction sys value).2.myBankOffset = c.myBankOffset
      ∧ (c.callFunction sys value).2.myBankLocked = c.myBankLocked
      ∧ (c.callFunction sys value).2.myBankChanged = c.myBankChanged
      ∧ (c.callFunction sys value).2.myBusOverdriveAddress = c.myBusOverdriveAddress := by
  unfold CartridgeBUS.callFunction
  by_cases hv : value = 254 ∨ value = 255
  · rw [if_pos hv]
    have hs := h hv
    unfold CartridgeBUS.armRun at hs
    dsimp only at hs ⊢
    cases hr : CartridgeBUS.runCallbacks
        (sys.thumbRun
          { c with myARMCycles := sys.cycles }
          (CartridgeBUS.toInt32
            ((sys.cycles + (18446744073709551616 - c.myARMCycles % 18446744073709551616))
              % 18446744073709551616))).callbacks
        { c with
          myARMCycles := sys.cycles,
          myBUSRAM := (sys.thumbRun
            { c with myARMCycles := sys.cycles }
            (CartridgeBUS.toInt32
              ((sys.cycles + (18446744073709551616 - c.myARMCycles % 18446744073709551616))
                % 18446744073709551616))).ram } with
    | none =>
      rw [hr] at hs
      exact Bool.noConfusion hs
    | some e =>
      have k := runCallbacks_some_keeps _ _ e hr
      exact k
  · rw [if_neg hv]
    exact ⟨rfl, rfl, rfl, rfl⟩

theorem poke_cart_cases (P : CartridgeBUS → Prop) (sys : System) (c : CartridgeBUS)
    (address value : Nat)
    (hsame : P c)
    (hlow : address &&& 0x1000 = 0 → P (c.busOverdrive address).2)
    (hwrite : P (CartridgeBUS.setDatastreamPointer
      { c with myBUSRAM :=
          store c.myBUSRAM (DSRAM + (c.getDatastreamPointer COMMSTREAM >>> 20)) value }
      COMMSTREAM ((c.getDatastreamPointer COMMSTREAM + 0x100000) % 4294967296)))
    (hptr : P (c.setDatastreamPointer COMMSTREAM
      (((((c.getDatastreamPointer COMMSTREAM <<< 8) % 4294967296) &&& 0xf0000000)
        ||| (value <<< 20)) % 4294967296)))
    (hmode : P { c with myMode := value % 256 })
    (hcall : address &&& 0x1000 ≠ 0 → address &&& 0x0FFF = 0xFF3 →
      P (c.callFunction sys value).2)
    (hbank : ∀ k, k < 7 → P (c.bank k).2) :
    P (c.poke sys address value).cart := by
  unfold CartridgeBUS.poke
  by_cases h0 : address &&& 0x1000 = 0
  · rw [if_pos h0]
    dsimp only
    refine ite_cases (fun r : PokeResult => P r.cart) (fun _ => hlow h0) (fun _ => ?_)
    exact ite_cases (fun r : PokeResult => P r.cart) (fun _ => hlow h0) (fun _ => hlow h0)
  · rw [if_neg h0]
    dsimp only
    refine ite_cases (fun r : PokeResult => P r.cart) (fun _ => hsame) (fun _ => ?_)
    refine ite_cases (fun r : PokeResult => P r.cart) (fun _ => hwrite) (fun _ => ?_)
    refine ite_cases (fun r : PokeResult => P r.cart) (fun _ => hptr) (fun _ => ?_)
    refine ite_cases (fun r : PokeResult => P r.cart) (fun _ => hmode) (fun _ => ?_)
    refine ite_cases (fun r : PokeResult => P r.cart) (fun h => hcall h0 h) (fun _ => ?_)
    refine ite_cases (fun r : PokeResult => P r.cart) (fun _ => hbank 0 (by decide)) (fun _ => ?_)
    refine ite_cases (fun r : PokeResult => P r.cart) (fun _ => hbank 1 (by decide)) (fun _ => ?_)
    refine ite_cases (fun r : PokeResult => P r.cart) (fun _ => hbank 2 (by decide)) (fun _ => ?_)
    refine ite_cases (fun r : PokeResult => P r.cart) (fun _ => hbank 3 (by decide)) (fun _ => ?_)
    refine ite_cases (fun r : PokeResult => P r.cart) (fun _ => hbank 4 (by decide)) (fun _ => ?_)
    refine ite_cases (fun r : PokeResult => P r.cart) (fun _ => hbank 5 (by decide)) (fun _ => ?_)
    refine ite_cases (fun r : PokeResult => P r.cart) (fun _ => hbank 6 (by decide)) (fun _ => ?_)
    exact hsame

theorem bank_locked_eq (c : CartridgeBUS) (n : Nat) (hl : c.bankLocked = true) :
    (c.bank n).2 = c := by
  simp [CartridgeBUS.bank, hl]

/-- Claim C6 as stated fails: `poke` has no lock test of its own.  On the
bank-locked device `lockedCart` a write of 0 to SETMODE (`$1FF2`) changes the
mode byte, a write to DSWRITE (`$1FF0`) changes the RAM, and a write below the
window changes the overdrive address. -/
theorem poke_locked_counterexample :
    lockedCart.bankLocked = true
      ∧ (lockedCart.poke idleSystem 0x1FF2 0).cart.myMode ≠ lockedCart.myMode
      ∧ (lockedCart.poke idleSystem 0x1FF0 0x55).cart.myBUSRAM 0x0800 ≠ lockedCart.myBUSRAM 0x0800
      ∧ (lockedCart.poke idleSystem 0x0002 0).cart.myBusOverdriveAddress
          ≠ lockedCart.myBusOverdriveAddress := by
  decide

/-- Claim C6, amended: on a bank-locked device `poke` returns false and a write
to which the source gives a meaning never changes the bank offset (the bank
hotspots `$1FF5`-`$1FFB` are ignored); a write to a window address other than
the four write registers DSWRITE, DSPTR, SETMODE and CALLFN (`0xFF0`-`0xFF3`)
leaves the whole device as it was.  The four write registers and the overdrive
logic below the window are not gated by the lock.  The one write without a
meaning is a CALLFN write whose interpreter run calls back with an index
outside the music arrays (`pokeDefined`). -/
theorem poke_locked_bank_kept (sys : System) (c : CartridgeBUS) (address value : Nat)
    (hl : c.bankLocked = true) :
    (c.poke sys address value).changed = false
      ∧ (pokeDefined sys c address value →
          (c.poke sys address value).cart.myBankOffset = c.myBankOffset)
      ∧ (address &&& 0x1000 ≠ 0 →
          ¬ (0xFF0 ≤ address &&& 0x0FFF ∧ address &&& 0x0FFF ≤ 0xFF3) →
          (c.poke sys address value).cart = c) := by
  refine ⟨?_, fun hd => ?_, ?_⟩
  · unfold CartridgeBUS.poke
    dsimp only
    repeat' refine ite_cases (fun r : PokeResult => r.changed = false) (fun _ => ?_) (fun _ => ?_)
    all_goals rfl
  · refine poke_cart_cases (fun d => d.myBankOffset = c.myBankOffset) sys c address value
      rfl (fun _ => busOverdrive_myBankOffset _ _) rfl rfl rfl
      (fun hw ho => (callFunction_keeps sys c value (hd hw ho)).1) (fun k _ => ?_)
    rw [bank_locked_eq _ _ hl]
  · intro ha hr
    unfold CartridgeBUS.poke
    rw [if_neg ha]
    dsimp only
    repeat' refine ite_cases (fun r : PokeResult => r.cart = c) (fun h => ?_) (fun h => ?_)
    all_goals
      first
        | rfl
        | omega
        | (rw [bank_locked_eq _ _ hl])

theorem poke_locked_bank_kept_witness :
    (lockedCart.poke idleSystem 0x1FF7 0).changed = false
      ∧ (pokeDefined idleSystem lockedCart 0x1FF7 0 →
          (lockedCart.poke idleSystem 0x1FF7 0).cart.myBankOffset = lockedCart.myBankOffset)
      ∧ (0x1FF7 &&& 0x1000 ≠ 0 →
          ¬ (0xFF0 ≤ 0x1FF7 &&& 0x0FFF ∧ 0x1FF7 &&& 0x0FFF ≤ 0xFF3) →
          (lockedCart.poke idleSystem 0x1FF7 0).cart = lockedCart) :=
  poke_locked_bank_kept idleSystem lockedCart 0x1FF7 0 rfl

/-! ## Reads through the bank window -/

theorem peekSwitch_value (sys : System) (c : CartridgeBUS) (address peekvalue : Nat)
    (h1 : address ≠ 0xFEE) (h2 : address ≠ 0xFEF) :
    (CartridgeBUS.peekSwitch sys c address peekvalue).1 = peekvalue := by
  unfold CartridgeBUS.peekSwitch
  rw [if_neg h1, if_neg h2]
  repeat' refine ite_cases (fun r : Nat × CartridgeBUS => r.1 = peekvalue) (fun _ => ?_) (fun _ => ?_)
  all_goals rfl

theorem peek_window_value (sys : System) (c : CartridgeBUS) (a : Nat)
    (ha : a &&& 0x1000 ≠ 0) (hl : c.bankLocked = false)
    (hj : c.myFastJumpActive = 0 ∨ c.myJMPoperandAddress ≠ a &&& 0x0FFF)
    (h1 : a &&& 0x0FFF ≠ 0xFEE) (h2 : a &&& 0x0FFF ≠ 0xFEF) :
    (c.peek sys a).value = c.myImage (4096 + (c.myBankOffset + (a &&& 0x0FFF))) := by
  have hj2 : ¬ (c.myFastJumpActive ≠ 0 ∧ c.myJMPoperandAddress = a &&& 0x0FFF) := by
    rintro ⟨hx, hy⟩
    rcases hj with h | h
    · exact hx h
    · exact h hy
  unfold CartridgeBUS.peek
  rw [if_neg ha]
  dsimp only
  rw [hl]
  rw [if_neg (by decide), if_neg hj2]
  refine ite_cases
    (fun r : PeekResult => r.value = c.myImage (4096 + (c.myBankOffset + (a &&& 0x0FFF))))
    (fun _ => ?_) (fun _ => ?_)
  · rfl
  · exact peekSwitch_value _ _ _ _ h1 h2

theorem bank_unlocked_eq (c : CartridgeBUS) (n : Nat) (hl : c.bankLocked = false) :
    (c.bank n).2 = { c with myBankOffset := (n <<< 12) % 65536, myBankChanged := true } := by
  simp [CartridgeBUS.bank, hl]

/-- Claim C2: on a device that is not bank-locked, after `bank(b)` with `b` in
0..6, a read of a window address `a` (bit 12 set) for which no fast-jump
redirect is pending and whose offset `a & 0x0FFF` is neither of the readable
registers `0xFEE`, `0xFEF` returns the image byte at offset
`b * 4096 + (a & 0x0FFF)` of the program ROM, which starts 4096 bytes into the
image. -/
theorem peek_after_bank (sys : System) (c : CartridgeBUS) (b a : Nat)
    (hb : b < 7) (ha : a &&& 0x1000 ≠ 0) (hl : c.bankLocked = false)
    (hj : c.myFastJumpActive = 0 ∨ c.myJMPoperandAddress ≠ a &&& 0x0FFF)
    (hr : a &&& 0x0FFF ≠ 0xFEE ∧ a &&& 0x0FFF ≠ 0xFEF) :
    ((c.bank b).2.peek sys a).value = c.myImage (4096 + (b * 4096 + (a &&& 0x0FFF))) := by
  rw [bank_unlocked_eq c b hl]
  rw [peek_window_value sys { c with myBankOffset := (b <<< 12) % 65536, myBankChanged := true }
    a ha hl hj hr.1 hr.2]
  have hoff : (b <<< 12) % 65536 = b * 4096 := by
    rw [Nat.shiftLeft_eq]
    norm_num
    omega
  simp only [hoff]

theorem peek_after_bank_witness :
    ((zeroCart.bank 2).2.peek idleSystem 0x1234).value
      = zeroCart.myImage (4096 + (2 * 4096 + (0x1234 &&& 0x0FFF))) :=
  peek_after_bank idleSystem zeroCart 2 0x1234 (by decide) (by decide) rfl
    (Or.inl rfl) (by decide)

/-! ## The datastream pointers -/

theorem and_ff (n : Nat) : n &&& 0xff = n % 256 :=
  Nat.and_pow_two_sub_one_eq_mod n 8

theorem pack_unpack (v : Nat) :
    ((v &&& 0xff) % 256 + ((((v >>> 8) &&& 0xff) % 256) <<< 8)
      + ((((v >>> 16) &&& 0xff) % 256) <<< 16)
      + ((((v >>> 24) &&& 0xff) % 256) <<< 24)) % 4294967296 = v % 4294967296 := by
  simp only [and_ff, Nat.shiftLeft_eq, Nat.shiftRight_eq_div_pow]
  norm_num
  omega

theorem store_eq (m : Nat → Nat) (a v : Nat) : store m a v a = v % 256 := by
  simp [store]

theorem store_ne (m : Nat → Nat) (a v x : Nat) (h : x ≠ a) : store m a v x = m x := by
  simp [store, h]

theorem store4_read (m : Nat → Nat) (base v0 v1 v2 v3 : Nat) :
    store (store (store (store m (base + 0) v0) (base + 1) v1) (base + 2) v2) (base + 3) v3 (base + 0)
        = v0 % 256
    ∧ store (store (store (store m (base + 0) v0) (base + 1) v1) (base + 2) v2) (base + 3) v3 (base + 1)
        = v1 % 256
    ∧ store (store (store (store m (base + 0) v0) (base + 1) v1) (base + 2) v2) (base + 3) v3 (base + 2)
        = v2 % 256
    ∧ store (store (store (store m (base + 0) v0) (base + 1) v1) (base + 2) v2) (base + 3) v3 (base + 3)
        = v3 % 256 := by
  simp [store]

theorem store4_other (m : Nat → Nat) (base v0 v1 v2 v3 x : Nat) (h : x < base ∨ base + 3 < x) :
    store (store (store (store m (base + 0) v0) (base + 1) v1) (base + 2) v2) (base + 3) v3 x
        = m x := by
  rw [store_ne _ _ _ _ (by omega), store_ne _ _ _ _ (by omega), store_ne _ _ _ _ (by omega),
    store_ne _ _ _ _ (by omega)]

theorem getDatastreamPointer_lt (c : CartridgeBUS) (i : Nat) :
    c.getDatastreamPointer i < 4294967296 := by
  unfold CartridgeBUS.getDatastreamPointer
  exact Nat.mod_lt _ (by decide)

theorem getDatastreamPointer_set (c : CartridgeBUS) (i v : Nat) :
    (c.setDatastreamPointer i v).getDatastreamPointer i = v % 4294967296 := by
  unfold CartridgeBUS.getDatastreamPointer CartridgeBUS.setDatastreamPointer
  dsimp only
  obtain ⟨h0, h1, h2, h3⟩ := store4_read c.myBUSRAM (DSxPTR + i * 4)
    (v &&& 0xff) ((v >>> 8) &&& 0xff) ((v >>> 16) &&& 0xff) ((v >>> 24) &&& 0xff)
  rw [h0, h1, h2, h3]
  exact pack_unpack v

theorem setDatastreamPointer_other (c : CartridgeBUS) (i v x : Nat)
    (h : x < DSxPTR + i * 4 ∨ DSxPTR + i * 4 + 3 < x) :
    (c.setDatastreamPointer i v).myBUSRAM x = c.myBUSRAM x := by
  unfold CartridgeBUS.setDatastreamPointer
  dsimp only
  exact store4_other _ _ _ _ _ _ _ h

/-- Claim C8: `readFromDatastream(i)` returns the display-RAM byte at the
integer position the pointer of stream `i` had before the call,
`RAM[0x0800 + (pointer >> 20)]`, and changes no RAM byte other than the four
pointer bytes of stream `i` (`0x06D8 + 4 i` to `0x06D8 + 4 i + 3`).  It holds
for every index, in particular for the streams 0..17. -/
theorem readFromDatastream_value_frame (c : CartridgeBUS) (i a : Nat)
    (ha : a < 0x06D8 + 4 * i ∨ 0x06D8 + 4 * i + 3 < a) :
    (c.readFromDatastream i).1 = c.myBUSRAM (0x0800 + (c.getDatastreamPointer i >>> 20))
      ∧ (c.readFromDatastream i).2.myBUSRAM a = c.myBUSRAM a := by
  constructor
  · rfl
  · unfold CartridgeBUS.readFromDatastream
    dsimp only
    apply setDatastreamPointer_other
    simp only [DSxPTR]
    omega

theorem readFromDatastream_value_frame_witness :
    (wrapCart.readFromDatastream 0).1
        = wrapCart.myBUSRAM (0x0800 + (wrapCart.getDatastreamPointer 0 >>> 20))
      ∧ (wrapCart.readFromDatastream 0).2.myBUSRAM 0x0720 = wrapCart.myBUSRAM 0x0720 :=
  readFromDatastream_value_frame wrapCart 0 0x0720 (by decide)

theorem unpack_pack (b0 b1 b2 b3 : Nat)
    (h0 : b0 < 256) (h1 : b1 < 256) (h2 : b2 < 256) (h3 : b3 < 256) :
    (((b0 + (b1 <<< 8) + (b2 <<< 16) + (b3 <<< 24)) % 4294967296) &&& 0xff) % 256 = b0
    ∧ ((((b0 + (b1 <<< 8) + (b2 <<< 16) + (b3 <<< 24)) % 4294967296) >>> 8) &&& 0xff) % 256 = b1
    ∧ ((((b0 + (b1 <<< 8) + (b2 <<< 16) + (b3 <<< 24)) % 4294967296) >>> 16) &&& 0xff) % 256 = b2
    ∧ ((((b0 + (b1 <<< 8) + (b2 <<< 16) + (b3 <<< 24)) % 4294967296) >>> 24) &&& 0xff) % 256
        = b3 := by
  simp only [and_ff, Nat.shiftLeft_eq, Nat.shiftRight_eq_div_pow]
  norm_num
  omega

theorem setDatastreamPointer_get (c : CartridgeBUS) (i : Nat)
    (hram : ∀ k, k < 4 → c.myBUSRAM (DSxPTR + i * 4 + k) < 256) :
    c.setDatastreamPointer i (c.getDatastreamPointer i) = c := by
  have hm : store (store (store (store c.myBUSRAM
        (DSxPTR + i * 4 + 0) (c.getDatastreamPointer i &&& 0xff))
        (DSxPTR + i * 4 + 1) ((c.getDatastreamPointer i >>> 8) &&& 0xff))
        (DSxPTR + i * 4 + 2) ((c.getDatastreamPointer i >>> 16) &&& 0xff))
        (DSxPTR + i * 4 + 3) ((c.getDatastreamPointer i >>> 24) &&& 0xff) = c.myBUSRAM := by
    obtain ⟨e0, e1, e2, e3⟩ := unpack_pack _ _ _ _
      (hram 0 (by decide)) (hram 1 (by decide)) (hram 2 (by decide)) (hram 3 (by decide))
    funext x
    unfold CartridgeBUS.getDatastreamPointer
    simp only [store]
    split_ifs with h3 h2 h1 h0
    · rw [h3]; exact e3
    · rw [h2]; exact e2
    · rw [h1]; exact e1
    · rw [h0]; exact e0
    · rfl
  unfold CartridgeBUS.setDatastreamPointer
  rw [hm]

/-- Claim C9: for a 32-bit value `v`, `setDatastreamPointer(i, v)` stores `v`
little-endian in the four RAM bytes at `0x06D8 + 4 i` (byte `k` holds
`(v >> 8k) & 0xFF`), `getDatastreamPointer(i)` then returns exactly `v`, and
writing back the value just read leaves the device, hence the RAM, unchanged
(the four cells being bytes, as every `uInt8` cell is).  It holds for every
index, in particular for the streams 0..17. -/
theorem setDatastreamPointer_little_endian (c : CartridgeBUS) (i v : Nat)
    (hv : v < 4294967296)
    (hram : ∀ k, k < 4 → c.myBUSRAM (0x06D8 + 4 * i + k) < 256) :
    (∀ k, k < 4 →
        (c.setDatastreamPointer i v).myBUSRAM (0x06D8 + 4 * i + k) = (v >>> (8 * k)) &&& 0xFF)
      ∧ (c.setDatastreamPointer i v).getDatastreamPointer i = v
      ∧ c.setDatastreamPointer i (c.getDatastreamPointer i) = c := by
  have hbase : 0x06D8 + 4 * i = DSxPTR + i * 4 := by
    simp only [DSxPTR]
    omega
  refine ⟨?_, ?_, ?_⟩
  · intro k hk
    obtain ⟨h0, h1, h2, h3⟩ := store4_read c.myBUSRAM (DSxPTR + i * 4)
      (v &&& 0xff) ((v >>> 8) &&& 0xff) ((v >>> 16) &&& 0xff) ((v >>> 24) &&& 0xff)
    unfold CartridgeBUS.setDatastreamPointer
    dsimp only
    rw [hbase]
    have hk4 : k = 0 ∨ k = 1 ∨ k = 2 ∨ k = 3 := by omega
    rcases hk4 with rfl | rfl | rfl | rfl
    · rw [h0]
      simp only [and_ff, Nat.mul_zero, Nat.shiftRight_zero]
      omega
    · rw [h1]
      simp only [and_ff]
      omega
    · rw [h2]
      simp only [and_ff]
      omega
    · rw [h3]
      simp only [and_ff]
      omega
  · rw [getDatastreamPointer_set]
    exact Nat.mod_eq_of_lt hv
  · apply setDatastreamPointer_get
    intro k hk
    rw [← hbase]
    exact hram k hk

theorem setDatastreamPointer_little_endian_witness :
    (∀ k, k < 4 →
        (zeroCart.setDatastreamPointer 17 0x12345678).myBUSRAM (0x06D8 + 4 * 17 + k)
          = (0x12345678 >>> (8 * k)) &&& 0xFF)
      ∧ (zeroCart.setDatastreamPointer 17 0x12345678).getDatastreamPointer 17 = 0x12345678
      ∧ zeroCart.setDatastreamPointer 17 (zeroCart.getDatastreamPointer 17) = zeroCart :=
  setDatastreamPointer_little_endian zeroCart 17 0x12345678 (by decide)
    (fun _ _ => (by decide : (0 : Nat) < 256))

/-! ## The fixed-point law of a datastream -/

theorem fixedPointValue_eq (c : CartridgeBUS) (i : Nat) :
    fixedPointValue c i = c.getDatastreamPointer i / 4096 := by
  have hlt := getDatastreamPointer_lt c i
  unfold fixedPointValue
  simp only [and_ff, Nat.shiftRight_eq_div_pow]
  norm_num
  omega

theorem readFromDatastream_pointer (c : CartridgeBUS) (i : Nat) :
    (c.readFromDatastream i).2.getDatastreamPointer i
      = (c.getDatastreamPointer i + ((c.getDatastreamIncrement i % 65536) <<< 12))
          % 4294967296 := by
  unfold CartridgeBUS.readFromDatastream
  dsimp only
  rw [getDatastreamPointer_set, Nat.mod_mod]

theorem fixedPointValue_step (c : CartridgeBUS) (i : Nat) :
    fixedPointValue (c.readFromDatastream i).2 i
      = (fixedPointValue c i + c.getDatastreamIncrement i % 65536) % 1048576 := by
  have hlt := getDatastreamPointer_lt c i
  rw [fixedPointValue_eq, fixedPointValue_eq, readFromDatastream_pointer, Nat.shiftLeft_eq]
  norm_num
  omega

/-- Claim C7 as stated fails: stream 0 of `wrapCart` holds the fixed-point value
`0xFFFFF` and the increment 1; after one `readFromDatastream(0)` the value is 0,
which is not `0xFFFFF + 1` modulo 2^32.  Nor is the raw 32-bit pointer the
initial pointer plus the increment modulo 2^32. -/
theorem fixedPoint_mod32_counterexample :
    fixedPointValue wrapCart 0 = 0xFFFFF
      ∧ appliedIncrements 0 1 wrapCart = [1]
      ∧ fixedPointValue (readFromDatastreamTimes 0 1 wrapCart) 0 = 0
      ∧ fixedPointValue (readFromDatastreamTimes 0 1 wrapCart) 0 % 4294967296
          ≠ (fixedPointValue wrapCart 0 + (appliedIncrements 0 1 wrapCart).sum) % 4294967296
      ∧ (readFromDatastreamTimes 0 1 wrapCart).getDatastreamPointer 0
          ≠ (wrapCart.getDatastreamPointer 0 + (appliedIncrements 0 1 wrapCart).sum)
              % 4294967296 := by
  decide

theorem pointer_linear (i n : Nat) (c : CartridgeBUS) :
    (readFromDatastreamTimes i n c).getDatastreamPointer i
      = (c.getDatastreamPointer i + ((appliedIncrements i n c).sum <<< 12)) % 4294967296 := by
  induction n generalizing c with
  | zero =>
    have hlt := getDatastreamPointer_lt c i
    simp only [readFromDatastreamTimes, appliedIncrements, List.sum_nil, Nat.zero_shiftLeft,
      Nat.add_zero]
    omega
  | succ n ih =>
    simp only [readFromDatastreamTimes, appliedIncrements, List.sum_cons]
    rw [ih, readFromDatastream_pointer]
    simp only [Nat.shiftLeft_eq]
    norm_num
    omega

/-- Claim C7, amended: the fixed-point value of a stream has twenty bits (a
12-bit integer position and an 8-bit fraction, `PPPFF---`), and the increment
applied by a call is the low sixteen bits of the increment field (`----IIFF`).
For every stream `i` and every number `n` of successive `readFromDatastream(i)`
calls, the fixed-point value afterwards equals the initial value plus the sum of
the increments applied, modulo 2^20; what holds modulo 2^32 is the law of the
raw pointer, which advances by the sum of the increments shifted left by 12. -/
theorem fixedPoint_linear (i n : Nat) (c : CartridgeBUS) :
    fixedPointValue (readFromDatastreamTimes i n c) i
        = (fixedPointValue c i + (appliedIncrements i n c).sum) % 1048576
      ∧ (readFromDatastreamTimes i n c).getDatastreamPointer i
        = (c.getDatastreamPointer i + ((appliedIncrements i n c).sum <<< 12))
            % 4294967296 := by
  refine ⟨?_, pointer_linear i n c⟩
  induction n generalizing c with
  | zero =>
    have hlt := getDatastreamPointer_lt c i
    have h := fixedPointValue_eq c i
    simp only [readFromDatastreamTimes, appliedIncrements, List.sum_nil, Nat.add_zero]
    omega
  | succ n ih =>
    simp only [readFromDatastreamTimes, appliedIncrements, List.sum_cons]
    rw [ih, fixedPointValue_step]
    omega

/-! ## The fast jump -/

theorem and_fff (n : Nat) : n &&& 0x0FFF = n % 4096 :=
  Nat.and_pow_two_sub_one_eq_mod n 12

theorem and_1000 (n : Nat) : n &&& 0x1000 = (n / 4096 % 2) * 4096 := by
  have h := Nat.and_two_pow n 12
  rw [Nat.toNat_testBit] at h
  exact h

theorem peek_fastjump_arm (sys : System) (c : CartridgeBUS) (A : Nat)
    (hl : c.bankLocked = false) (hm : c.myMode &&& 0x0F = 0) (hf : c.myFastJumpActive = 0)
    (hA : A &&& 0x1000 ≠ 0)
    (h0 : c.myImage (4096 + (c.myBankOffset + (A &&& 0x0FFF))) = 0x4C)
    (h1 : c.myImage (4096 + (c.myBankOffset + (A &&& 0x0FFF) + 1)) = 0)
    (h2 : c.myImage (4096 + (c.myBankOffset + (A &&& 0x0FFF) + 2)) = 0) :
    c.peek sys A
      = ⟨0x4C, none, { c with myFastJumpActive := 2, myJMPoperandAddress := (A &&& 0x0FFF) + 1 }⟩ := by
  have hs : c.BUS_STUFF_ON = true := by
    simp [CartridgeBUS.BUS_STUFF_ON, hm]
  unfold CartridgeBUS.peek
  rw [if_neg hA]
  dsimp only
  rw [hl, if_neg (by decide), if_neg (fun h => h.1 hf), if_pos ⟨hs, h0, h1, h2⟩]
  simp only [CartridgeBUS.myProgramImage, h0]

theorem peek_fastjump_fetch (sys : System) (c : CartridgeBUS) (a : Nat)
    (hl : c.bankLocked = false) (ha : a &&& 0x1000 ≠ 0)
    (hf : c.myFastJumpActive ≠ 0) (hj : c.myJMPoperandAddress = a &&& 0x0FFF) :
    c.peek sys a
      = ⟨c.myBUSRAM (0x0800 + (c.getDatastreamPointer 0x11 >>> 20)), none,
          CartridgeBUS.setDatastreamPointer
            { c with
              myFastJumpActive := (c.myFastJumpActive + 255) % 256,
              myJMPoperandAddress := (c.myJMPoperandAddress + 1) % 65536 }
            0x11 ((c.getDatastreamPointer 0x11 + 0x100000) % 4294967296)⟩ := by
  unfold CartridgeBUS.peek
  rw [if_neg ha]
  dsimp only
  rw [hl, if_neg (by decide), if_pos ⟨hf, hj⟩]
  rfl


theorem peek_fastjump_fetch_spec (sys : System) (c : CartridgeBUS) (a : Nat)
    (hl : c.bankLocked = false) (ha : a &&& 0x1000 ≠ 0)
    (hf : c.myFastJumpActive ≠ 0) (hj : c.myJMPoperandAddress = a &&& 0x0FFF) :
    (c.peek sys a).value = c.myBUSRAM (0x0800 + (c.getDatastreamPointer 0x11 >>> 20))
      ∧ (c.peek sys a).cart.bankLocked = false
      ∧ (c.peek sys a).cart.myFastJumpActive = (c.myFastJumpActive + 255) % 256
      ∧ (c.peek sys a).cart.myJMPoperandAddress = (c.myJMPoperandAddress + 1) % 65536
      ∧ (c.peek sys a).cart.getDatastreamPointer 0x11
          = (c.getDatastreamPointer 0x11 + 0x100000) % 4294967296
      ∧ ∀ x, 0x0800 ≤ x → (c.peek sys a).cart.myBUSRAM x = c.myBUSRAM x := by
  rw [peek_fastjump_fetch sys c a hl ha hf hj]
  dsimp only
  refine ⟨rfl, hl, rfl, rfl, ?_, ?_⟩
  · rw [getDatastreamPointer_set, Nat.mod_mod]
  · intro x hx
    exact setDatastreamPointer_other _ _ _ _ (by simp only [DSxPTR]; omega)

/-- Claim C10, amended: on a device that is not bank-locked, with fast fetch
enabled (`(mode & 0x0F) == 0`) and no fast jump pending, let `A` be a window
address whose offset `A & 0x0FFF` is at most `0x0FFD`, so that `A + 1` and
`A + 2` are addresses of the same bank window, and let the ROM byte of the
current bank at `A` be `0x4C`, followed by two zero bytes.  If the next two
display-RAM bytes of the jump datastream (stream 17) are `d0` and `d1`, then
`peek(A)` returns `0x4C`, the next read, at `A + 1`, returns `d0`, the read after
it, at `A + 2`, returns `d1`, and the fast-jump counter is 0 afterwards. -/
theorem fast_jump (sys1 sys2 sys3 : System) (c : CartridgeBUS) (A d0 d1 : Nat)
    (hl : c.bankLocked = false) (hm : c.myMode &&& 0x0F = 0) (hf : c.myFastJumpActive = 0)
    (hA : A &&& 0x1000 ≠ 0) (hwin : (A &&& 0x0FFF) ≤ 0x0FFD)
    (h0 : c.myImage (4096 + (c.myBankOffset + (A &&& 0x0FFF))) = 0x4C)
    (h1 : c.myImage (4096 + (c.myBankOffset + (A &&& 0x0FFF) + 1)) = 0)
    (h2 : c.myImage (4096 + (c.myBankOffset + (A &&& 0x0FFF) + 2)) = 0)
    (hd0 : c.myBUSRAM (0x0800 + (c.getDatastreamPointer 0x11 >>> 20)) = d0)
    (hd1 : c.myBUSRAM (0x0800 + ((c.getDatastreamPointer 0x11 >>> 20) + 1) % 4096) = d1) :
    (c.peek sys1 A).value = 0x4C
      ∧ ((c.peek sys1 A).cart.peek sys2 (A + 1)).value = d0
      ∧ (((c.peek sys1 A).cart.peek sys2 (A + 1)).cart.peek sys3 (A + 2)).value = d1
      ∧ (((c.peek sys1 A).cart.peek sys2 (A + 1)).cart.peek sys3 (A + 2)).cart.myFastJumpActive
          = 0 := by
  have hA' := hA
  have hwin' := hwin
  rw [and_1000] at hA'
  rw [and_fff] at hwin'
  have hA1 : (A + 1) &&& 0x1000 ≠ 0 := by rw [and_1000]; omega
  have hA2 : (A + 2) &&& 0x1000 ≠ 0 := by rw [and_1000]; omega
  have ha1 : (A &&& 0x0FFF) + 1 = (A + 1) &&& 0x0FFF := by rw [and_fff, and_fff]; omega
  have ha2 : ((A &&& 0x0FFF) + 1 + 1) % 65536 = (A + 2) &&& 0x0FFF := by
    rw [and_fff, and_fff]; omega
  have hp := getDatastreamPointer_lt c 0x11
  have e1 := peek_fastjump_arm sys1 c A hl hm hf hA h0 h1 h2
  -- the device after the read of the opcode
  have c1l : (c.peek sys1 A).cart.bankLocked = false := by rw [e1]; exact hl
  have c1f : (c.peek sys1 A).cart.myFastJumpActive = 2 := by rw [e1]
  have c1j : (c.peek sys1 A).cart.myJMPoperandAddress = (A &&& 0x0FFF) + 1 := by rw [e1]
  have c1r : (c.peek sys1 A).cart.myBUSRAM = c.myBUSRAM := by rw [e1]
  have c1p : (c.peek sys1 A).cart.getDatastreamPointer 0x11 = c.getDatastreamPointer 0x11 := by
    rw [e1]; rfl
  obtain ⟨v2, l2, f2, j2, p2, r2⟩ := peek_fastjump_fetch_spec sys2 (c.peek sys1 A).cart (A + 1)
    c1l hA1 (by rw [c1f]; decide) (by rw [c1j]; exact ha1)
  obtain ⟨v3, _, f3, _, _, _⟩ := peek_fastjump_fetch_spec sys3
    ((c.peek sys1 A).cart.peek sys2 (A + 1)).cart (A + 2)
    l2 hA2 (by rw [f2, c1f]; decide) (by rw [j2, c1j]; exact ha2)
  refine ⟨by rw [e1], ?_, ?_, ?_⟩
  · rw [v2, c1r, c1p]; exact hd0
  · rw [v3, p2, c1p, r2 _ (by omega), c1r]
    have hidx : ((c.getDatastreamPointer 0x11 + 0x100000) % 4294967296) >>> 20
        = ((c.getDatastreamPointer 0x11 >>> 20) + 1) % 4096 := by
      simp only [Nat.shiftRight_eq_div_pow]
      norm_num
      omega
    rw [hidx]
    exact hd1
  · rw [f3, f2, c1f]

theorem fast_jump_witness :
    (jumpCart.peek idleSystem 0x1100).value = 0x4C
      ∧ ((jumpCart.peek idleSystem 0x1100).cart.peek idleSystem (0x1100 + 1)).value = 0x11
      ∧ (((jumpCart.peek idleSystem 0x1100).cart.peek idleSystem (0x1100 + 1)).cart.peek
            idleSystem (0x1100 + 2)).value = 0x22
      ∧ (((jumpCart.peek idleSystem 0x1100).cart.peek idleSystem (0x1100 + 1)).cart.peek
            idleSystem (0x1100 + 2)).cart.myFastJumpActive = 0 :=
  fast_jump idleSystem idleSystem idleSystem jumpCart 0x1100 0x11 0x22
    rfl (by decide) rfl (by decide) (by decide) (by decide) (by decide) (by decide)
    (by decide) (by decide)

/-- Claim C10 as stated fails at the end of the bank window: on `edgeCart`
(bank 0, fast fetch enabled, no fast jump pending) the ROM byte at the window
address `$1FFE` is `0x4C` and the two ROM bytes after it are zero, the jump
datastream holds `0x11`, `0x22`; `peek($1FFE)` returns `0x4C` and the read at
`$1FFF` returns `0x11`, but the read at `$1FFE + 2 = $2000` has bit 12 clear: it
is handed to the TIA and does not return `0x22`, and the fast-jump counter is
still 1 afterwards. -/
theorem fast_jump_window_end_counterexample :
    edgeCart.bankLocked = false ∧ edgeCart.myMode &&& 0x0F = 0 ∧ edgeCart.myFastJumpActive = 0
      ∧ 0x1FFE &&& 0x1000 ≠ 0
      ∧ edgeCart.myImage (4096 + (edgeCart.myBankOffset + (0x1FFE &&& 0x0FFF))) = 0x4C
      ∧ edgeCart.myImage (4096 + (edgeCart.myBankOffset + (0x1FFE &&& 0x0FFF) + 1)) = 0
      ∧ edgeCart.myImage (4096 + (edgeCart.myBankOffset + (0x1FFE &&& 0x0FFF) + 2)) = 0
      ∧ edgeCart.myBUSRAM (0x0800 + (edgeCart.getDatastreamPointer 0x11 >>> 20)) = 0x11
      ∧ edgeCart.myBUSRAM (0x0800 + ((edgeCart.getDatastreamPointer 0x11 >>> 20) + 1) % 4096)
          = 0x22
      ∧ (edgeCart.peek idleSystem 0x1FFE).value = 0x4C
      ∧ ((edgeCart.peek idleSystem 0x1FFE).cart.peek idleSystem (0x1FFE + 1)).value = 0x11
      ∧ (((edgeCart.peek idleSystem 0x1FFE).cart.peek idleSystem (0x1FFE + 1)).cart.peek
            idleSystem (0x1FFE + 2)).value ≠ 0x22
      ∧ (((edgeCart.peek idleSystem 0x1FFE).cart.peek idleSystem (0x1FFE + 1)).cart.peek
            idleSystem (0x1FFE + 2)).chip = some Chip.tia
      ∧ (((edgeCart.peek idleSystem 0x1FFE).cart.peek idleSystem (0x1FFE + 1)).cart.peek
            idleSystem (0x1FFE + 2)).cart.myFastJumpActive = 1 := by
  decide

/-! ## Patching the ROM image -/

/-- Claim C19: for an address whose low 12 bits are below `0x0040`, `patch`
returns false and leaves the device as it was, in particular the ROM image and
the `bankChanged` flag. -/
theorem patch_protected (c : CartridgeBUS) (address value : Nat)
    (h : address &&& 0x0FFF < 0x0040) :
    (c.patch address value).1 = false
      ∧ (c.patch address value).2.myImage = c.myImage
      ∧ (c.patch address value).2.myBankChanged = c.myBankChanged
      ∧ (c.patch address value).2 = c := by
  unfold CartridgeBUS.patch
  dsimp only
  rw [if_neg (by omega)]
  exact ⟨rfl, rfl, rfl, rfl⟩

theorem patch_protected_witness :
    (zeroCart.patch 0x103F 0x55).1 = false
      ∧ (zeroCart.patch 0x103F 0x55).2.myImage = zeroCart.myImage
      ∧ (zeroCart.patch 0x103F 0x55).2.myBankChanged = zeroCart.myBankChanged
      ∧ (zeroCart.patch 0x103F 0x55).2 = zeroCart :=
  patch_protected zeroCart 0x103F 0x55 (by decide)

theorem and_fff_idem (n : Nat) : (n &&& 0x0FFF) &&& 0x0FFF = n &&& 0x0FFF := by
  rw [and_fff, and_fff]
  omega

/-- Claim C20 as stated fails for an address below the window: on the locked
device `lockedCart`, `patch($0040, 0x55)` returns true and writes the image, but
the bank-locked `peek($0040)` that follows has bit 12 clear, is handed to the
TIA and does not return `0x55`. -/
theorem patch_then_peek_counterexample :
    0x0040 &&& 0x0FFF ≥ 0x0040 ∧ lockedCart.getBank < 7
      ∧ (lockedCart.patch 0x0040 0x55).1 = true
      ∧ (lockedCart.patch 0x0040 0x55).2.bankLocked = true
      ∧ ((lockedCart.patch 0x0040 0x55).2.peek idleSystem 0x0040).value ≠ 0x55
      ∧ ((lockedCart.patch 0x0040 0x55).2.peek idleSystem 0x0040).chip = some Chip.tia := by
  decide

/-- Claim C20, amended: for an address with `(address & 0x0FFF) >= 0x0040` and
a byte `v`, `patch(address, v)` returns true and changes the image in one cell
only, the program ROM offset `bankOffset + (address & 0x0FFF)`, which then
holds `v`; and when the address is a window address (bit 12 set), a subsequent
bank-locked `peek` of it in the same bank returns `v`.  It holds for every bank
offset, in particular for the banks 0..6. -/
theorem patch_then_peek (sys : System) (c : CartridgeBUS) (address v : Nat)
    (h : address &&& 0x0FFF ≥ 0x0040) (hv : v < 256) :
    (c.patch address v).1 = true
      ∧ (c.patch address v).2.myImage (4096 + (c.myBankOffset + (address &&& 0x0FFF))) = v
      ∧ (∀ x, x ≠ 4096 + (c.myBankOffset + (address &&& 0x0FFF)) →
          (c.patch address v).2.myImage x = c.myImage x)
      ∧ (c.patch address v).2.myBankOffset = c.myBankOffset
      ∧ (address &&& 0x1000 ≠ 0 →
          (CartridgeBUS.peek sys { (c.patch address v).2 with myBankLocked := true }
            address).value = v) := by
  have hp : c.patch address v
      = (true, { c with
          myImage := store c.myImage (4096 + (c.myBankOffset + (address &&& 0x0FFF))) v,
          myBankChanged := true }) := by
    unfold CartridgeBUS.patch
    dsimp only
    rw [if_pos h, and_fff_idem]
  have hcell : store c.myImage (4096 + (c.myBankOffset + (address &&& 0x0FFF))) v
      (4096 + (c.myBankOffset + (address &&& 0x0FFF))) = v := by
    rw [store_eq]
    exact Nat.mod_eq_of_lt hv
  rw [hp]
  refine ⟨rfl, hcell, fun x hx => store_ne _ _ _ _ hx, rfl, ?_⟩
  intro ha
  unfold CartridgeBUS.peek
  rw [if_neg ha]
  exact hcell

theorem patch_then_peek_witness :
    (lockedCart.patch 0x1040 0x55).1 = true
      ∧ (lockedCart.patch 0x1040 0x55).2.myImage
          (4096 + (lockedCart.myBankOffset + (0x1040 &&& 0x0FFF))) = 0x55
      ∧ (∀ x, x ≠ 4096 + (lockedCart.myBankOffset + (0x1040 &&& 0x0FFF)) →
          (lockedCart.patch 0x1040 0x55).2.myImage x = lockedCart.myImage x)
      ∧ (lockedCart.patch 0x1040 0x55).2.myBankOffset = lockedCart.myBankOffset
      ∧ (0x1040 &&& 0x1000 ≠ 0 →
          (CartridgeBUS.peek idleSystem
            { (lockedCart.patch 0x1040 0x55).2 with myBankLocked := true } 0x1040).value
            = 0x55) :=
  patch_then_peek idleSystem lockedCart 0x1040 0x55 (by decide) (by decide)

/-! ## Accesses below the cartridge window -/

theorem and_3ff_mirror (n : Nat) : (n + 0x400) &&& 0x3ff = n &&& 0x3ff := by
  have h1 := Nat.and_pow_two_sub_one_eq_mod (n + 0x400) 10
  have h2 := Nat.and_pow_two_sub_one_eq_mod n 10
  norm_num at h1 h2
  rw [h1, h2]

/-- Claim C16 as stated fails where `address + 0x400` reaches the window: the
address `$0C80` has bit 12 clear and is handed to the M6532 by `peek` and by
`poke`, while `$0C80 + $0400 = $1080` has bit 12 set and is handed to no chip. -/
theorem mirror_counterexample :
    0x0C80 &&& 0x1000 = 0
      ∧ (zeroCart.peek idleSystem 0x0C80).chip = some Chip.m6532
      ∧ (zeroCart.peek idleSystem (0x0C80 + 0x400)).chip = none
      ∧ (zeroCart.poke idleSystem 0x0C80 0).chip = some (Chip.m6532, 0x0C80, 0)
      ∧ (zeroCart.poke idleSystem (0x0C80 + 0x400) 0).chip = none := by
  decide

/-- Claim C16, amended: for an address with bit 12 clear, `peek` and `poke`
decide the responsible party from fixed bits of `address & 0x3FF` only: the
M6532 when bit 7 is set, the TIA when bits 7 and 9 are both clear, and no party
otherwise, in which case `peek` returns 0 and no chip is called; a `peek`
leaves the device as it was.  The decision is the same for `address` and
`address + 0x400` whenever `address + 0x400` has bit 12 clear as well. -/
theorem low_address_dispatch (sys : System) (c : CartridgeBUS) (address value : Nat)
    (h : address &&& 0x1000 = 0) :
    ((address &&& 0x3ff) &&& 0x80 ≠ 0 →
        c.peek sys address = ⟨sys.m6532Peek address, some Chip.m6532, c⟩
          ∧ (c.poke sys address value).chip.map Prod.fst = some Chip.m6532)
      ∧ ((address &&& 0x3ff) &&& 0x80 = 0 → (address &&& 0x3ff) &&& 0x200 = 0 →
        c.peek sys address = ⟨sys.tiaPeek address, some Chip.tia, c⟩
          ∧ (c.poke sys address value).chip.map Prod.fst = some Chip.tia)
      ∧ ((address &&& 0x3ff) &&& 0x80 = 0 → (address &&& 0x3ff) &&& 0x200 ≠ 0 →
        c.peek sys address = ⟨0, none, c⟩ ∧ (c.poke sys address value).chip = none)
      ∧ ((address + 0x400) &&& 0x1000 = 0 →
        (c.peek sys (address + 0x400)).chip = (c.peek sys address).chip
          ∧ (c.poke sys (address + 0x400) value).chip.map Prod.fst
              = (c.poke sys address value).chip.map Prod.fst) := by
  refine ⟨?_, ?_, ?_, ?_⟩
  · intro h7
    unfold CartridgeBUS.peek CartridgeBUS.poke
    rw [if_pos h, if_pos h]
    dsimp only
    rw [if_pos h7, if_pos h7]
    exact ⟨rfl, rfl⟩
  · intro h7 h9
    unfold CartridgeBUS.peek CartridgeBUS.poke
    rw [if_pos h, if_pos h]
    dsimp only
    rw [if_neg (not_not.mpr h7), if_neg (not_not.mpr h7), if_pos h9, if_pos h9]
    exact ⟨rfl, rfl⟩
  · intro h7 h9
    unfold CartridgeBUS.peek CartridgeBUS.poke
    rw [if_pos h, if_pos h]
    dsimp only
    rw [if_neg (not_not.mpr h7), if_neg (not_not.mpr h7), if_neg h9, if_neg h9]
    exact ⟨rfl, rfl⟩
  · intro h'
    unfold CartridgeBUS.peek CartridgeBUS.poke
    rw [if_pos h, if_pos h, if_pos h', if_pos h']
    dsimp only
    rw [and_3ff_mirror]
    constructor
    · by_cases h7 : (address &&& 0x3ff) &&& 0x80 ≠ 0
      · rw [if_pos h7, if_pos h7]
      · rw [if_neg h7, if_neg h7]
        by_cases h9 : (address &&& 0x3ff) &&& 0x200 = 0
        · rw [if_pos h9, if_pos h9]
        · rw [if_neg h9, if_neg h9]
    · by_cases h7 : (address &&& 0x3ff) &&& 0x80 ≠ 0
      · rw [if_pos h7, if_pos h7]
        rfl
      · rw [if_neg h7, if_neg h7]
        by_cases h9 : (address &&& 0x3ff) &&& 0x200 = 0
        · rw [if_pos h9, if_pos h9]
          rfl
        · rw [if_neg h9, if_neg h9]

theorem low_address_dispatch_witness :
    ((0x0280 &&& 0x3ff) &&& 0x80 ≠ 0 →
        zeroCart.peek idleSystem 0x0280
            = ⟨idleSystem.m6532Peek 0x0280, some Chip.m6532, zeroCart⟩
          ∧ (zeroCart.poke idleSystem 0x0280 7).chip.map Prod.fst = some Chip.m6532)
      ∧ ((0x0280 &&& 0x3ff) &&& 0x80 = 0 → (0x0280 &&& 0x3ff) &&& 0x200 = 0 →
        zeroCart.peek idleSystem 0x0280 = ⟨idleSystem.tiaPeek 0x0280, some Chip.tia, zeroCart⟩
          ∧ (zeroCart.poke idleSystem 0x0280 7).chip.map Prod.fst = some Chip.tia)
      ∧ ((0x0280 &&& 0x3ff) &&& 0x80 = 0 → (0x0280 &&& 0x3ff) &&& 0x200 ≠ 0 →
        zeroCart.peek idleSystem 0x0280 = ⟨0, none, zeroCart⟩
          ∧ (zeroCart.poke idleSystem 0x0280 7).chip = none)
      ∧ ((0x0280 + 0x400) &&& 0x1000 = 0 →
        (zeroCart.peek idleSystem (0x0280 + 0x400)).chip = (zeroCart.peek idleSystem 0x0280).chip
          ∧ (zeroCart.poke idleSystem (0x0280 + 0x400) 7).chip.map Prod.fst
              = (zeroCart.poke idleSystem 0x0280 7).chip.map Prod.fst) :=
  low_address_dispatch idleSystem zeroCart 0x0280 7 (by decide)

/-! ## The last branch of a window read -/

theorem peek_eq_peekTail (sys : System) (c : CartridgeBUS) (A : Nat)
    (hA : A &&& 0x1000 ≠ 0) (hl : c.bankLocked = false)
    (hj : c.myFastJumpActive = 0 ∨ c.myJMPoperandAddress ≠ A &&& 0x0FFF)
    (hp : ¬ (c.BUS_STUFF_ON = true
        ∧ c.myProgramImage (c.myBankOffset + (A &&& 0x0FFF)) = 0x4C
        ∧ c.myProgramImage (c.myBankOffset + (A &&& 0x0FFF) + 1) = 0
        ∧ c.myProgramImage (c.myBankOffset + (A &&& 0x0FFF) + 2) = 0)) :
    c.peek sys A
      = c.peekTail sys (A &&& 0x0FFF) (c.myProgramImage (c.myBankOffset + (A &&& 0x0FFF))) := by
  have hj2 : ¬ (c.myFastJumpActive ≠ 0 ∧ c.myJMPoperandAddress = A &&& 0x0FFF) := by
    rintro ⟨hx, hy⟩
    rcases hj with h | h
    · exact hx h
    · exact h hy
  unfold CartridgeBUS.peek
  rw [if_neg hA]
  dsimp only
  rw [hl, if_neg (by decide), if_neg hj2, if_neg hp]
  rfl

theorem bank_keeps (c : CartridgeBUS) (n : Nat) :
    (c.bank n).2.myMode = c.myMode ∧ (c.bank n).2.myBankLocked = c.myBankLocked
      ∧ (c.bank n).2.mySTYZeroPageAddress = c.mySTYZeroPageAddress
      ∧ (c.bank n).2.myJMPoperandAddress = c.myJMPoperandAddress
      ∧ (c.bank n).2.myBusOverdriveAddress = c.myBusOverdriveAddress
      ∧ (c.bank n).2.myFastJumpActive = c.myFastJumpActive
      ∧ (c.bank n).2.myImage = c.myImage := by
  unfold CartridgeBUS.bank
  by_cases h : c.bankLocked = true
  · rw [if_pos h]
    exact ⟨rfl, rfl, rfl, rfl, rfl, rfl, rfl⟩
  · rw [if_neg h]
    exact ⟨rfl, rfl, rfl, rfl, rfl, rfl, rfl⟩

theorem updateMusicModeDataFetchers_keeps (sys : System) (c : CartridgeBUS) :
    (c.updateMusicModeDataFetchers sys).myMode = c.myMode
      ∧ (c.updateMusicModeDataFetchers sys).myBankLocked = c.myBankLocked
      ∧ (c.updateMusicModeDataFetchers sys).mySTYZeroPageAddress = c.mySTYZeroPageAddress
      ∧ (c.updateMusicModeDataFetchers sys).myJMPoperandAddress = c.myJMPoperandAddress
      ∧ (c.updateMusicModeDataFetchers sys).myBusOverdriveAddress = c.myBusOverdriveAddress
      ∧ (c.updateMusicModeDataFetchers sys).myFastJumpActive = c.myFastJumpActive
      ∧ (c.updateMusicModeDataFetchers sys).myImage = c.myImage := by
  unfold CartridgeBUS.updateMusicModeDataFetchers
  dsimp only
  refine ite_cases (fun d : CartridgeBUS =>
    d.myMode = c.myMode ∧ d.myBankLocked = c.myBankLocked
      ∧ d.mySTYZeroPageAddress = c.mySTYZeroPageAddress
      ∧ d.myJMPoperandAddress = c.myJMPoperandAddress
      ∧ d.myBusOverdriveAddress = c.myBusOverdriveAddress
      ∧ d.myFastJumpActive = c.myFastJumpActive
      ∧ d.myImage = c.myImage) (fun _ => ?_) (fun _ => ?_)
  · exact ⟨rfl, rfl, rfl, rfl, rfl, rfl, rfl⟩
  · exact ⟨rfl, rfl, rfl, rfl, rfl, rfl, rfl⟩

theorem peekSwitch_keeps (sys : System) (c : CartridgeBUS) (address peekvalue : Nat) :
    (CartridgeBUS.peekSwitch sys c address peekvalue).2.myMode = c.myMode
      ∧ (CartridgeBUS.peekSwitch sys c address peekvalue).2.myBankLocked = c.myBankLocked
      ∧ (CartridgeBUS.peekSwitch sys c address peekvalue).2.mySTYZeroPageAddress
          = c.mySTYZeroPageAddress
      ∧ (CartridgeBUS.peekSwitch sys c address peekvalue).2.myJMPoperandAddress
          = c.myJMPoperandAddress
      ∧ (CartridgeBUS.peekSwitch sys c address peekvalue).2.myBusOverdriveAddress
          = c.myBusOverdriveAddress
      ∧ (CartridgeBUS.peekSwitch sys c address peekvalue).2.myFastJumpActive
          = c.myFastJumpActive
      ∧ (CartridgeBUS.peekSwitch sys c address peekvalue).2.myImage = c.myImage := by
  unfold CartridgeBUS.peekSwitch
  dsimp only
  repeat'
    (refine ite_cases (fun r : Nat × CartridgeBUS =>
      r.2.myMode = c.myMode ∧ r.2.myBankLocked = c.myBankLocked
        ∧ r.2.mySTYZeroPageAddress = c.mySTYZeroPageAddress
        ∧ r.2.myJMPoperandAddress = c.myJMPoperandAddress
        ∧ r.2.myBusOverdriveAddress = c.myBusOverdriveAddress
        ∧ r.2.myFastJumpActive = c.myFastJumpActive
        ∧ r.2.myImage = c.myImage) (fun _ => ?_) (fun _ => ?_))
  all_goals
    first
      | exact ⟨rfl, rfl, rfl, rfl, rfl, rfl, rfl⟩
      | exact bank_keeps _ _
      | exact updateMusicModeDataFetchers_keeps _ _

theorem peekLatch_fields (c : CartridgeBUS) (address peekvalue : Nat) :
    (c.peekLatch address peekvalue).myMode = c.myMode
      ∧ (c.peekLatch address peekvalue).myBankLocked = c.myBankLocked
      ∧ (c.peekLatch address peekvalue).mySTYZeroPageAddress = 0
      ∧ (c.peekLatch address peekvalue).myJMPoperandAddress = 0
      ∧ (c.peekLatch address peekvalue).myBusOverdriveAddress
          = (if c.BUS_STUFF_ON = true ∧ c.mySTYZeroPageAddress = address then peekvalue
              else c.myBusOverdriveAddress)
      ∧ (c.peekLatch address peekvalue).myFastJumpActive = c.myFastJumpActive
      ∧ (c.peekLatch address peekvalue).myImage = c.myImage
      ∧ (c.peekLatch address peekvalue).myBankOffset = c.myBankOffset
      ∧ (c.peekLatch address peekvalue).myBUSRAM = c.myBUSRAM := by
  unfold CartridgeBUS.peekLatch
  dsimp only
  by_cases h : c.BUS_STUFF_ON = true ∧ c.mySTYZeroPageAddress = address
  · rw [if_pos h, if_pos (show
      CartridgeBUS.BUS_STUFF_ON { c with myJMPoperandAddress := 0 } = true
        ∧ c.mySTYZeroPageAddress = address from h)]
    exact ⟨rfl, rfl, rfl, rfl, rfl, rfl, rfl, rfl, rfl⟩
  · rw [if_neg h, if_neg (show
      ¬ (CartridgeBUS.BUS_STUFF_ON { c with myJMPoperandAddress := 0 } = true
        ∧ c.mySTYZeroPageAddress = address) from h)]
    exact ⟨rfl, rfl, rfl, rfl, rfl, rfl, rfl, rfl, rfl⟩

theorem BUS_STUFF_ON_of_mode (c d : CartridgeBUS) (h : d.myMode = c.myMode) :
    d.BUS_STUFF_ON = c.BUS_STUFF_ON := by
  unfold CartridgeBUS.BUS_STUFF_ON
  rw [h]

theorem peekTail_fields (sys : System) (c : CartridgeBUS) (address peekvalue : Nat) :
    (c.peekTail sys address peekvalue).value
        = (CartridgeBUS.peekSwitch sys (c.peekLatch address peekvalue) address peekvalue).1
      ∧ (c.peekTail sys address peekvalue).chip = none
      ∧ (c.peekTail sys address peekvalue).cart.myMode = c.myMode
      ∧ (c.peekTail sys address peekvalue).cart.myBankLocked = c.myBankLocked
      ∧ (c.peekTail sys address peekvalue).cart.mySTYZeroPageAddress
          = (if c.BUS_STUFF_ON = true ∧ (c.peekTail sys address peekvalue).value = 0x84
              then address + 1 else 0)
      ∧ (c.peekTail sys address peekvalue).cart.myJMPoperandAddress = 0
      ∧ (c.peekTail sys address peekvalue).cart.myBusOverdriveAddress
          = (if c.BUS_STUFF_ON = true ∧ c.mySTYZeroPageAddress = address then peekvalue
              else c.myBusOverdriveAddress)
      ∧ (c.peekTail sys address peekvalue).cart.myFastJumpActive = c.myFastJumpActive
      ∧ (c.peekTail sys address peekvalue).cart.myImage = c.myImage := by
  obtain ⟨l1, l2, l3, l4, l5, l6, l7, _, _⟩ := peekLatch_fields c address peekvalue
  obtain ⟨k1, k2, k3, k4, k5, k6, k7⟩ :=
    peekSwitch_keeps sys (c.peekLatch address peekvalue) address peekvalue
  have hb : (CartridgeBUS.peekSwitch sys (c.peekLatch address peekvalue) address peekvalue).2.BUS_STUFF_ON
      = c.BUS_STUFF_ON := BUS_STUFF_ON_of_mode _ _ (k1.trans l1)
  unfold CartridgeBUS.peekTail
  dsimp only
  rw [hb]
  refine ⟨rfl, rfl, ?_⟩
  by_cases h : c.BUS_STUFF_ON = true
      ∧ (CartridgeBUS.peekSwitch sys (c.peekLatch address peekvalue) address peekvalue).1 = 0x84
  · rw [if_pos h]
    exact ⟨k1.trans l1, k2.trans l2, (if_pos h).symm, k4.trans l4, k5.trans l5, k6.trans l6,
      k7.trans l7⟩
  · rw [if_neg h]
    exact ⟨k1.trans l1, k2.trans l2, k3.trans (l3.trans (if_neg h).symm), k4.trans l4,
      k5.trans l5, k6.trans l6, k7.trans l7⟩

/-! ## The bank hotspots -/

theorem peekSwitch_hotspot (sys : System) (c : CartridgeBUS) (k peekvalue : Nat) (hk : k ≤ 6) :
    CartridgeBUS.peekSwitch sys c (0x0FF5 + k) peekvalue = (peekvalue, (c.bank k).2) := by
  interval_cases k <;> rfl

theorem bank_unlocked_getBank (c : CartridgeBUS) (n : Nat) (hl : c.bankLocked = false) :
    (c.bank n).2.getBank = n % 16 := by
  rw [bank_unlocked_eq c n hl]
  exact shl12_shr12 n

theorem BUS_STUFF_ON_iff (c : CartridgeBUS) :
    c.BUS_STUFF_ON = true ↔ c.myMode &&& 0x0F = 0 := by
  unfold CartridgeBUS.BUS_STUFF_ON
  exact beq_iff_eq

/-- Claim C15 as stated fails when the read at the hotspot does not reach the
`switch`: on `jumpAtHotspotCart` (not bank-locked, bank 6) the read of `$1FF5`
observes `JMP $0000` and returns after arming the fast jump, and on
`jumpPendingCart` it is redirected to the jump datastream; in both cases
`getBank()` is still 6 afterwards, not 0. -/
theorem hotspot_counterexample :
    jumpAtHotspotCart.bankLocked = false
      ∧ (jumpAtHotspotCart.peek idleSystem (0x1FF5 + 0)).cart.getBank = 6
      ∧ jumpPendingCart.bankLocked = false
      ∧ (jumpPendingCart.peek idleSystem (0x1FF5 + 0)).cart.getBank = 6 := by
  decide

/-- Claim C15, amended: on a device that is not bank-locked, for `k` in 0..6, a
read at a window address with offset `0x0FF5 + k` (such as `$1FF5 + k`) that is
neither redirected to the jump datastream (no fast jump pending at that
address) nor arms a fast jump (fast fetch off, or the ROM bytes there are not
`4C 00 00`) switches the bank as a side effect: `getBank()` returns `k`
afterwards. -/
theorem hotspot_read_switches_bank (sys : System) (c : CartridgeBUS) (A k : Nat)
    (hl : c.bankLocked = false) (hk : k ≤ 6)
    (hA : A &&& 0x1000 ≠ 0) (hoff : A &&& 0x0FFF = 0x0FF5 + k)
    (hj : c.myFastJumpActive = 0 ∨ c.myJMPoperandAddress ≠ A &&& 0x0FFF)
    (hp : ¬ (c.myMode &&& 0x0F = 0
        ∧ c.myImage (4096 + (c.myBankOffset + (A &&& 0x0FFF))) = 0x4C
        ∧ c.myImage (4096 + (c.myBankOffset + (A &&& 0x0FFF) + 1)) = 0
        ∧ c.myImage (4096 + (c.myBankOffset + (A &&& 0x0FFF) + 2)) = 0)) :
    (c.peek sys A).cart.getBank = k := by
  have hp2 : ¬ (c.BUS_STUFF_ON = true
      ∧ c.myProgramImage (c.myBankOffset + (A &&& 0x0FFF)) = 0x4C
      ∧ c.myProgramImage (c.myBankOffset + (A &&& 0x0FFF) + 1) = 0
      ∧ c.myProgramImage (c.myBankOffset + (A &&& 0x0FFF) + 2) = 0) := by
    rintro ⟨h1, h2⟩
    exact hp ⟨(BUS_STUFF_ON_iff c).mp h1, h2⟩
  have hlatch : (c.peekLatch (0x0FF5 + k)
      (c.myProgramImage (c.myBankOffset + (0x0FF5 + k)))).bankLocked = false :=
    (peekLatch_fields c _ _).2.1.trans hl
  have hbank := bank_unlocked_getBank
    (c.peekLatch (0x0FF5 + k) (c.myProgramImage (c.myBankOffset + (0x0FF5 + k)))) k hlatch
  rw [Nat.mod_eq_of_lt (by omega)] at hbank
  rw [peek_eq_peekTail sys c A hA hl hj hp2, hoff]
  unfold CartridgeBUS.peekTail
  dsimp only
  rw [peekSwitch_hotspot sys _ k _ hk]
  dsimp only
  refine ite_cases (fun d : CartridgeBUS => d.getBank = k) (fun _ => ?_) (fun _ => ?_)
  · exact hbank
  · exact hbank

theorem hotspot_read_switches_bank_witness :
    (zeroCart.peek idleSystem 0x1FF7).cart.getBank = 2 :=
  hotspot_read_switches_bank idleSystem zeroCart 0x1FF7 2 rfl (by decide) (by decide)
    (by decide) (Or.inl rfl) (by decide)

/-! ## The bus overdrive -/

theorem busOverdrive_disarms (c : CartridgeBUS) (address : Nat) :
    (c.busOverdrive address).2.myBusOverdriveAddress = 0xff := rfl

theorem busOverdrive_idle (c : CartridgeBUS) (address : Nat)
    (h : c.myBusOverdriveAddress = 0xff) :
    (c.busOverdrive address).1 = 0xff ∧ (c.busOverdrive address).2.myBUSRAM = c.myBUSRAM := by
  unfold CartridgeBUS.busOverdrive
  dsimp only
  by_cases ha : address = c.myBusOverdriveAddress
  · have h255 : address = 0xff := ha.trans h
    subst h255
    rw [if_pos ha, if_neg (by decide)]
    exact ⟨rfl, rfl⟩
  · rw [if_neg ha]
    exact ⟨rfl, rfl⟩

theorem busOverdrive_fires (c : CartridgeBUS) (address : Nat)
    (ha : address = c.myBusOverdriveAddress) (hm : address &&& 0x7f ≤ 0x24) :
    (c.busOverdrive address).1
      = c.myBUSRAM (0x0800
          + (c.getDatastreamPointer (c.getAddressMap (address &&& 0x7f) &&& 0x0f) >>> 20)) := by
  unfold CartridgeBUS.busOverdrive
  dsimp only
  rw [if_pos ha, if_pos hm]
  rfl

theorem poke_low (sys : System) (c : CartridgeBUS) (address value : Nat)
    (h : address &&& 0x1000 = 0) :
    (c.poke sys address value).chip
        = (if (address &&& 0x3ff) &&& 0x80 ≠ 0 then
            some (Chip.m6532, address, value &&& (c.busOverdrive address).1)
          else if (address &&& 0x3ff) &&& 0x200 = 0 then
            some (Chip.tia, address, value &&& (c.busOverdrive address).1)
          else none)
      ∧ (c.poke sys address value).cart = (c.busOverdrive address).2 := by
  unfold CartridgeBUS.poke
  rw [if_pos h]
  dsimp only
  by_cases h7 : (address &&& 0x3ff) &&& 0x80 ≠ 0
  · rw [if_pos h7, if_pos h7]
    exact ⟨rfl, rfl⟩
  · rw [if_neg h7, if_neg h7]
    by_cases h9 : (address &&& 0x3ff) &&& 0x200 = 0
    · rw [if_pos h9, if_pos h9]
      exact ⟨rfl, rfl⟩
    · rw [if_neg h9, if_neg h9]
      exact ⟨rfl, rfl⟩

theorem and_ff_of_lt (v : Nat) (hv : v < 256) : v &&& 0xff = v := by
  rw [and_ff]
  exact Nat.mod_eq_of_lt hv

/-- Claim C12 as stated fails for a write to a window address: on `armedCart`
the overdrive is armed for address 2; the write `poke($1FF2, 0xFF)` (bit 12 set)
does not run the overdrive logic and leaves it armed, so that the next write
to address 2, of `0xFF`, is forwarded as `0x7F` and advances the pointer of
datastream 3. -/
theorem overdrive_window_write_counterexample :
    armedCart.myBusOverdriveAddress = 2
      ∧ (armedCart.poke idleSystem 0x1FF2 0xFF).cart.myBusOverdriveAddress = 2
      ∧ ((armedCart.poke idleSystem 0x1FF2 0xFF).cart.poke idleSystem 2 0xFF).chip
          = some (Chip.tia, 2, 0x7F)
      ∧ ((armedCart.poke idleSystem 0x1FF2 0xFF).cart.poke idleSystem 2 0xFF).cart.myBUSRAM 0x06E6
          ≠ (armedCart.poke idleSystem 0x1FF2 0xFF).cart.myBUSRAM 0x06E6 := by
  decide

/-- Claim C12, amended: every write `poke(address, value)` to an address below
the cartridge window (bit 12 clear), whether or not the address matches the
armed address, disarms the overdrive (the overdrive address becomes `0xff`):
the next write below the window, to the previously armed address or to any
other, is forwarded with its byte `v` unmodified and consumes no datastream
byte (the RAM is left as it was).  A write to a window address to which the
source gives a meaning (`pokeDefined`: every write but a CALLFN write whose
interpreter run calls back with an index outside the music arrays) does not
run the overdrive logic and leaves the overdrive armed. -/
theorem overdrive_disarmed_by_low_write (sys1 sys2 : System) (c : CartridgeBUS)
    (address value address2 v : Nat)
    (h1 : address &&& 0x1000 = 0) (h2 : address2 &&& 0x1000 = 0) (hv : v < 256) :
    (c.poke sys1 address value).cart.myBusOverdriveAddress = 0xff
      ∧ (∀ ch a w, ((c.poke sys1 address value).cart.poke sys2 address2 v).chip
            = some (ch, a, w) → w = v)
      ∧ ((c.poke sys1 address value).cart.poke sys2 address2 v).cart.myBUSRAM
          = (c.poke sys1 address value).cart.myBUSRAM
      ∧ (∀ address3 value3, address3 &&& 0x1000 ≠ 0 →
          pokeDefined sys1 c address3 value3 →
          (c.poke sys1 address3 value3).cart.myBusOverdriveAddress
            = c.myBusOverdriveAddress) := by
  have hd : (c.poke sys1 address value).cart.myBusOverdriveAddress = 0xff := by
    rw [(poke_low sys1 c address value h1).2]
    exact busOverdrive_disarms c address
  obtain ⟨hchip, hcart⟩ := poke_low sys2 (c.poke sys1 address value).cart address2 v h2
  obtain ⟨hod, hram⟩ := busOverdrive_idle (c.poke sys1 address value).cart address2 hd
  refine ⟨hd, ?_, ?_, ?_⟩
  · intro ch a w hw
    rw [hchip, hod, and_ff_of_lt v hv] at hw
    by_cases h7 : (address2 &&& 0x3ff) &&& 0x80 ≠ 0
    · rw [if_pos h7] at hw
      injection hw with hw
      injection hw with _ hw
      injection hw with _ hw
      exact hw.symm
    · rw [if_neg h7] at hw
      by_cases h9 : (address2 &&& 0x3ff) &&& 0x200 = 0
      · rw [if_pos h9] at hw
        injection hw with hw
        injection hw with _ hw
        injection hw with _ hw
        exact hw.symm
      · rw [if_neg h9] at hw
        exact absurd hw (by simp)
  · rw [hcart]
    exact hram
  · intro address3 value3 h3 hdef
    exact poke_cart_cases
      (fun d => d.myBusOverdriveAddress = c.myBusOverdriveAddress) sys1 c address3 value3
      rfl (fun h => absurd h h3) rfl rfl rfl
      (fun hw ho => (callFunction_keeps sys1 c value3 (hdef hw ho)).2.2.2)
      (fun k _ => (bank_keeps c k).2.2.2.2.1)

theorem overdrive_disarmed_by_low_write_witness :
    (armedCart.poke idleSystem 0x0010 0).cart.myBusOverdriveAddress = 0xff
      ∧ (∀ ch a w, ((armedCart.poke idleSystem 0x0010 0).cart.poke idleSystem 2 0xFF).chip
            = some (ch, a, w) → w = 0xFF)
      ∧ ((armedCart.poke idleSystem 0x0010 0).cart.poke idleSystem 2 0xFF).cart.myBUSRAM
          = (armedCart.poke idleSystem 0x0010 0).cart.myBUSRAM
      ∧ (∀ address3 value3, address3 &&& 0x1000 ≠ 0 →
          pokeDefined idleSystem armedCart address3 value3 →
          (armedCart.poke idleSystem address3 value3).cart.myBusOverdriveAddress
            = armedCart.myBusOverdriveAddress) :=
  overdrive_disarmed_by_low_write idleSystem idleSystem armedCart 0x0010 0 2 0xFF
    (by decide) (by decide) (by decide)

theorem peek_arm_value (sys : System) (c : CartridgeBUS) (A : Nat)
    (hA : A &&& 0x1000 ≠ 0) (hl : c.bankLocked = false)
    (hj : c.myFastJumpActive = 0 ∨ c.myJMPoperandAddress ≠ A &&& 0x0FFF)
    (hp : c.BUS_STUFF_ON = true
        ∧ c.myProgramImage (c.myBankOffset + (A &&& 0x0FFF)) = 0x4C
        ∧ c.myProgramImage (c.myBankOffset + (A &&& 0x0FFF) + 1) = 0
        ∧ c.myProgramImage (c.myBankOffset + (A &&& 0x0FFF) + 2) = 0) :
    (c.peek sys A).value = 0x4C := by
  have hj2 : ¬ (c.myFastJumpActive ≠ 0 ∧ c.myJMPoperandAddress = A &&& 0x0FFF) := by
    rintro ⟨hx, hy⟩
    rcases hj with h | h
    · exact hx h
    · exact h hy
  unfold CartridgeBUS.peek
  rw [if_neg hA]
  dsimp only
  rw [hl, if_neg (by decide), if_neg hj2, if_pos hp]
  exact hp.2.1

theorem peek_opcode_sty (sys : System) (c : CartridgeBUS) (B : Nat)
    (hl : c.bankLocked = false) (hm : c.myMode &&& 0x0F = 0)
    (hB : B &&& 0x1000 ≠ 0)
    (hreg : B &&& 0x0FFF ≠ 0xFEE ∧ B &&& 0x0FFF ≠ 0xFEF)
    (hj : c.myFastJumpActive = 0 ∨ c.myJMPoperandAddress ≠ B &&& 0x0FFF)
    (hop : c.myImage (4096 + (c.myBankOffset + (B &&& 0x0FFF))) = 0x84) :
    (c.peek sys B).value = 0x84
      ∧ (c.peek sys B).cart.bankLocked = false
      ∧ (c.peek sys B).cart.myMode = c.myMode
      ∧ (c.peek sys B).cart.mySTYZeroPageAddress = (B &&& 0x0FFF) + 1
      ∧ (c.peek sys B).cart.myJMPoperandAddress = 0 := by
  have hs : c.BUS_STUFF_ON = true := (BUS_STUFF_ON_iff c).mpr hm
  have hpv : c.myProgramImage (c.myBankOffset + (B &&& 0x0FFF)) = 0x84 := hop
  have hp : ¬ (c.BUS_STUFF_ON = true
      ∧ c.myProgramImage (c.myBankOffset + (B &&& 0x0FFF)) = 0x4C
      ∧ c.myProgramImage (c.myBankOffset + (B &&& 0x0FFF) + 1) = 0
      ∧ c.myProgramImage (c.myBankOffset + (B &&& 0x0FFF) + 2) = 0) := by
    rintro ⟨_, h, _⟩
    rw [hpv] at h
    exact absurd h (by decide)
  rw [peek_eq_peekTail sys c B hB hl hj hp]
  obtain ⟨f1, _, f3, f4, f5, f6, _, _, _⟩ :=
    peekTail_fields sys c (B &&& 0x0FFF) (c.myProgramImage (c.myBankOffset + (B &&& 0x0FFF)))
  have hv : (c.peekTail sys (B &&& 0x0FFF)
      (c.myProgramImage (c.myBankOffset + (B &&& 0x0FFF)))).value = 0x84 := by
    rw [f1, peekSwitch_value _ _ _ _ hreg.1 hreg.2]
    exact hpv
  refine ⟨hv, f4.trans hl, f3, ?_, f6⟩
  rw [f5, if_pos ⟨hs, hv⟩]

theorem peek_operand_latch (sys : System) (c : CartridgeBUS) (A : Nat)
    (hl : c.bankLocked = false) (hm : c.myMode &&& 0x0F = 0)
    (hA : A &&& 0x1000 ≠ 0)
    (hreg : A &&& 0x0FFF ≠ 0xFEE ∧ A &&& 0x0FFF ≠ 0xFEF)
    (hj : c.myFastJumpActive = 0 ∨ c.myJMPoperandAddress ≠ A &&& 0x0FFF)
    (hsty : c.mySTYZeroPageAddress = A &&& 0x0FFF)
    (hz : (c.peek sys A).value &&& 0x7F ≤ 0x24) :
    (c.peek sys A).cart.myBusOverdriveAddress = (c.peek sys A).value := by
  have hs : c.BUS_STUFF_ON = true := (BUS_STUFF_ON_iff c).mpr hm
  by_cases hp : c.BUS_STUFF_ON = true
      ∧ c.myProgramImage (c.myBankOffset + (A &&& 0x0FFF)) = 0x4C
      ∧ c.myProgramImage (c.myBankOffset + (A &&& 0x0FFF) + 1) = 0
      ∧ c.myProgramImage (c.myBankOffset + (A &&& 0x0FFF) + 2) = 0
  · rw [peek_arm_value sys c A hA hl hj hp] at hz
    exact absurd hz (by decide)
  · rw [peek_eq_peekTail sys c A hA hl hj hp]
    obtain ⟨f1, _, _, _, _, _, f7, _, _⟩ :=
      peekTail_fields sys c (A &&& 0x0FFF) (c.myProgramImage (c.myBankOffset + (A &&& 0x0FFF)))
    rw [f7, if_pos ⟨hs, hsty⟩, f1, peekSwitch_value _ _ _ _ hreg.1 hreg.2]

theorem low_byte_bits (Z : Nat) (hZ : Z < 256) :
    Z &&& 0x1000 = 0 ∧ Z &&& 0x3ff = Z ∧ Z &&& 0x200 = 0 := by
  refine ⟨?_, ?_, ?_⟩
  · rw [and_1000]
    omega
  · have h := Nat.and_pow_two_sub_one_eq_mod Z 10
    norm_num at h
    rw [h]
    omega
  · have h := Nat.and_two_pow Z 9
    rw [Nat.toNat_testBit] at h
    norm_num at h
    rw [h]
    omega

/-- Claim C11 as stated fails: the read of the opcode only records the address of
the operand.  On `overdriveCart` (not bank-locked, bus stuffing enabled, `84 02`
at `$1100`, address-map entry 2 naming datastream 3, whose next byte is `0x7F`)
the read at `$1100` returns `0x84`; a write of `0xFF` to `$1101` that follows
is a window write and is forwarded to no chip, a write of `0xFF` to `$0101` is
forwarded as `0xFF`, and so is a write of `0xFF` to the zero-page address 2,
the overdrive address not being latched yet. -/
theorem overdrive_after_opcode_counterexample :
    overdriveCart.bankLocked = false ∧ overdriveCart.BUS_STUFF_ON = true
      ∧ (overdriveCart.peek idleSystem 0x1100).value = 0x84
      ∧ ((overdriveCart.peek idleSystem 0x1100).cart.poke idleSystem (0x1100 + 1) 0xFF).chip
          = none
      ∧ ((overdriveCart.peek idleSystem 0x1100).cart.poke idleSystem 0x0101 0xFF).chip
          = some (Chip.tia, 0x0101, 0xFF)
      ∧ ((overdriveCart.peek idleSystem 0x1100).cart.poke idleSystem 2 0xFF).chip
          = some (Chip.tia, 2, 0xFF) := by
  decide

/-- Claim C11, amended: on a device that is not bank-locked and has bus
stuffing enabled, let a read at the window address `B` observe the opcode
`0x84` (which records `B + 1` as the address of its operand) and let the next
read, at `B + 1`, return the operand byte `Z`, a zero-page address with
`Z & 0x7F <= 0x24`; this read arms the overdrive for the address `Z`.  If the
address-map entry `Z & 0x7F` then names the datastream `s` and the next byte of
that datastream is `m`, a subsequent write of `v` to the address `Z` is
forwarded (to the M6532 when bit 7 of `Z` is set, to the TIA otherwise) as
`v AND m`.  `B` and `B + 1` are window addresses other than the readable
registers `0xFEE`, `0xFEF`, and no fast-jump redirect is pending at `B`. -/
theorem overdrive_masks_write (sys1 sys2 sys3 : System) (c : CartridgeBUS) (B Z s m v : Nat)
    (hl : c.bankLocked = false) (hm : c.myMode &&& 0x0F = 0)
    (hB : B &&& 0x1000 ≠ 0) (hb : B &&& 0x0FFF ≤ 0x0FFE)
    (hreg : B &&& 0x0FFF ≠ 0xFED ∧ B &&& 0x0FFF ≠ 0xFEE ∧ B &&& 0x0FFF ≠ 0xFEF)
    (hj : c.myFastJumpActive = 0 ∨ c.myJMPoperandAddress ≠ B &&& 0x0FFF)
    (hop : c.myImage (4096 + (c.myBankOffset + (B &&& 0x0FFF))) = 0x84)
    (hZ : ((c.peek sys1 B).cart.peek sys2 (B + 1)).value = Z)
    (hZb : Z < 256) (hZm : Z &&& 0x7F ≤ 0x24)
    (hs : ((c.peek sys1 B).cart.peek sys2 (B + 1)).cart.getAddressMap (Z &&& 0x7F) &&& 0x0F = s)
    (hmk : ((c.peek sys1 B).cart.peek sys2 (B + 1)).cart.myBUSRAM
        (0x0800 + (((c.peek sys1 B).cart.peek sys2 (B + 1)).cart.getDatastreamPointer s >>> 20))
        = m) :
    (c.peek sys1 B).value = 0x84
      ∧ ((c.peek sys1 B).cart.peek sys2 (B + 1)).cart.myBusOverdriveAddress = Z
      ∧ (((c.peek sys1 B).cart.peek sys2 (B + 1)).cart.poke sys3 Z v).chip
          = some (if Z &&& 0x80 ≠ 0 then Chip.m6532 else Chip.tia, Z, v &&& m) := by
  have hB' := hB
  have hb' := hb
  rw [and_1000] at hB'
  rw [and_fff] at hb'
  have hB1 : (B + 1) &&& 0x1000 ≠ 0 := by rw [and_1000]; omega
  have hb1 : (B + 1) &&& 0x0FFF = (B &&& 0x0FFF) + 1 := by rw [and_fff, and_fff]; omega
  obtain ⟨v1, l1, m1, s1, j1⟩ := peek_opcode_sty sys1 c B hl hm hB ⟨hreg.2.1, hreg.2.2⟩ hj hop
  have hod : ((c.peek sys1 B).cart.peek sys2 (B + 1)).cart.myBusOverdriveAddress = Z := by
    rw [peek_operand_latch sys2 (c.peek sys1 B).cart (B + 1) l1 (by rw [m1]; exact hm) hB1
      (by rw [hb1]; constructor <;> omega)
      (Or.inr (by rw [j1, hb1]; omega)) (by rw [s1, hb1]) (by rw [hZ]; exact hZm)]
    exact hZ
  obtain ⟨z1, z2, z3⟩ := low_byte_bits Z hZb
  obtain ⟨hchip, _⟩ := poke_low sys3 ((c.peek sys1 B).cart.peek sys2 (B + 1)).cart Z v z1
  have hfire := busOverdrive_fires ((c.peek sys1 B).cart.peek sys2 (B + 1)).cart Z hod.symm hZm
  rw [hs, hmk] at hfire
  refine ⟨v1, hod, ?_⟩
  rw [hchip, hfire, z2]
  by_cases h7 : Z &&& 0x80 ≠ 0
  · rw [if_pos h7, if_pos h7]
  · rw [if_neg h7, if_neg h7, if_pos z3]

theorem overdrive_masks_write_witness :
    (overdriveCart.peek idleSystem 0x1100).value = 0x84
      ∧ ((overdriveCart.peek idleSystem 0x1100).cart.peek idleSystem
            (0x1100 + 1)).cart.myBusOverdriveAddress = 2
      ∧ (((overdriveCart.peek idleSystem 0x1100).cart.peek idleSystem (0x1100 + 1)).cart.poke
            idleSystem 2 0xFF).chip
          = some (if 2 &&& 0x80 ≠ 0 then Chip.m6532 else Chip.tia, 2, 0xFF &&& 0x7F) :=
  overdrive_masks_write idleSystem idleSystem idleSystem overdriveCart 0x1100 2 3 0x7F 0xFF
    rfl (by decide) (by decide) (by decide) (by decide) (Or.inl rfl) (by decide)
    (by decide) (by decide) (by decide) (by decide) (by decide)

/-! ## Reset -/

theorem reset_eq (fill : Nat → Nat) (c : CartridgeBUS) :
    c.reset fill
      = (CartridgeBUS.bank
          { c with
            myBUSRAM := fun i =>
              if i < 0x0800 then c.myImage i
              else if 2048 ≤ i ∧ i < 8192 then fill i % 256 else c.myBUSRAM i
            myAudioCycles := 0
            myARMCycles := 0
            myFractionalClocks := 0
            myMusicWaveformSize := fun i => if i < 3 then 27 else c.myMusicWaveformSize i
            myStartBank := 6
            myMode := 0xFF
            myBankOffset := 0
            myBusOverdriveAddress := 0
            mySTYZeroPageAddress := 0
            myJMPoperandAddress := 0
            myFastJumpActive := 0 } 6).2 := rfl

theorem bank_fields (c : CartridgeBUS) (n : Nat) :
    (c.bank n).2.myBUSRAM = c.myBUSRAM
      ∧ (c.bank n).2.myAudioCycles = c.myAudioCycles
      ∧ (c.bank n).2.myARMCycles = c.myARMCycles
      ∧ (c.bank n).2.myFractionalClocks = c.myFractionalClocks
      ∧ (c.bank n).2.myMusicCounters = c.myMusicCounters
      ∧ (c.bank n).2.myMusicFrequencies = c.myMusicFrequencies
      ∧ (c.bank n).2.myMusicWaveformSize = c.myMusicWaveformSize
      ∧ (c.bank n).2.myStartBank = c.myStartBank := by
  unfold CartridgeBUS.bank
  by_cases h : c.bankLocked = true
  · rw [if_pos h]
    exact ⟨rfl, rfl, rfl, rfl, rfl, rfl, rfl, rfl⟩
  · rw [if_neg h]
    exact ⟨rfl, rfl, rfl, rfl, rfl, rfl, rfl, rfl⟩

/-- Claim C17 as stated fails for a bank-locked device: `reset` clears the bank
offset and the `bank(myStartBank)` call that follows is refused by the lock, so
that on `lockedCart` (bank 6 before the reset) `getBank()` returns 0
afterwards, not the startup bank 6. -/
theorem reset_locked_counterexample :
    lockedCart.getBank = 6
      ∧ (lockedCart.reset (fun _ => 0)).getBank = 0
      ∧ (lockedCart.reset (fun _ => 0)).getBank ≠ 6 := by
  decide

/-- Claim C17, amended: after `reset()` the device is in its power-on state
whatever its prior state: the mode byte is `0xFF`, the three waveform-size shifts
are 27, the fast-jump counter and the JMP, STY and overdrive addresses are 0, both
cycle counters and the fractional clock are 0, the start bank is 6 and the 2 KiB
driver region `RAM[0..0x7FF]` equals `image[0..0x7FF]`; `getBank()` returns the
startup bank 6 when the device is not bank-locked. -/
theorem reset_power_on (fill : Nat → Nat) (c : CartridgeBUS) :
    (c.bankLocked = false → (c.reset fill).getBank = 6)
      ∧ (c.reset fill).myMode = 0xFF
      ∧ (∀ i, i < 3 → (c.reset fill).myMusicWaveformSize i = 27)
      ∧ (c.reset fill).myFastJumpActive = 0
      ∧ (c.reset fill).myJMPoperandAddress = 0
      ∧ (c.reset fill).mySTYZeroPageAddress = 0
      ∧ (c.reset fill).myBusOverdriveAddress = 0
      ∧ (c.reset fill).myAudioCycles = 0
      ∧ (c.reset fill).myARMCycles = 0
      ∧ (c.reset fill).myFractionalClocks = 0
      ∧ (c.reset fill).myStartBank = 6
      ∧ (∀ i, i < 0x0800 → (c.reset fill).myBUSRAM i = c.myImage i) := by
  obtain ⟨d, hd⟩ : ∃ d : CartridgeBUS, d =
      { c with
        myBUSRAM := fun i =>
          if i < 0x0800 then c.myImage i
          else if 2048 ≤ i ∧ i < 8192 then fill i % 256 else c.myBUSRAM i
        myAudioCycles := 0
        myARMCycles := 0
        myFractionalClocks := 0
        myMusicWaveformSize := fun i => if i < 3 then 27 else c.myMusicWaveformSize i
        myStartBank := 6
        myMode := 0xFF
        myBankOffset := 0
        myBusOverdriveAddress := 0
        mySTYZeroPageAddress := 0
        myJMPoperandAddress := 0
        myFastJumpActive := 0 } := ⟨_, rfl⟩
  rw [reset_eq, ← hd]
  obtain ⟨k1, _, k3, k4, k5, k6, _⟩ := bank_keeps d 6
  obtain ⟨b1, b2, b3, b4, _, _, b7, b8⟩ := bank_fields d 6
  rw [k1, k3, k4, k5, k6, b1, b2, b3, b4, b7, b8]
  refine ⟨?_, ?_⟩
  · intro hl
    have hl' : d.bankLocked = false := by rw [hd]; exact hl
    rw [bank_unlocked_getBank d 6 hl']
  · rw [hd]
    exact ⟨rfl, fun i hi => if_pos hi, rfl, rfl, rfl, rfl, rfl, rfl, rfl, rfl,
      fun i hi => if_pos hi⟩

theorem reset_power_on_witness :
    (zeroCart.bankLocked = false → (zeroCart.reset (fun _ => 0)).getBank = 6)
      ∧ (zeroCart.reset (fun _ => 0)).myMode = 0xFF
      ∧ (∀ i, i < 3 → (zeroCart.reset (fun _ => 0)).myMusicWaveformSize i = 27)
      ∧ (zeroCart.reset (fun _ => 0)).myFastJumpActive = 0
      ∧ (zeroCart.reset (fun _ => 0)).myJMPoperandAddress = 0
      ∧ (zeroCart.reset (fun _ => 0)).mySTYZeroPageAddress = 0
      ∧ (zeroCart.reset (fun _ => 0)).myBusOverdriveAddress = 0
      ∧ (zeroCart.reset (fun _ => 0)).myAudioCycles = 0
      ∧ (zeroCart.reset (fun _ => 0)).myARMCycles = 0
      ∧ (zeroCart.reset (fun _ => 0)).myFractionalClocks = 0
      ∧ (zeroCart.reset (fun _ => 0)).myStartBank = 6
      ∧ (∀ i, i < 0x0800 → (zeroCart.reset (fun _ => 0)).myBUSRAM i = zeroCart.myImage i) :=
  reset_power_on (fun _ => 0) zeroCart

/-- Claim C18 as stated fails: `reset` does not write the music-channel
accumulators and frequencies.  `zeroCart` and `tunedCart` have the same image and
differ only in the accumulators and frequencies; after `reset()` they still
differ in both. -/
theorem reset_counters_counterexample :
    zeroCart.myImage = tunedCart.myImage
      ∧ (zeroCart.reset (fun _ => 0)).myMusicCounters 0
          ≠ (tunedCart.reset (fun _ => 0)).myMusicCounters 0
      ∧ (zeroCart.reset (fun _ => 0)).myMusicFrequencies 0
          ≠ (tunedCart.reset (fun _ => 0)).myMusicFrequencies 0 := by
  refine ⟨rfl, ?_, ?_⟩ <;> decide

/-- Claim C18, amended: for any two device states over the same image, the
datastream pointers of the streams 0..17 are equal after `reset()` is applied
to each (they lie in the driver region, which `reset` copies from the image);
the music-channel accumulators and frequencies are not written by `reset()`:
each device keeps the ones it had. -/
theorem reset_pointers_equal (fill1 fill2 : Nat → Nat) (s t : CartridgeBUS) (i : Nat)
    (himg : s.myImage = t.myImage) (hi : i ≤ 17) :
    (s.reset fill1).getDatastreamPointer i = (t.reset fill2).getDatastreamPointer i
      ∧ (s.reset fill1).myMusicCounters = s.myMusicCounters
      ∧ (s.reset fill1).myMusicFrequencies = s.myMusicFrequencies
      ∧ (t.reset fill2).myMusicCounters = t.myMusicCounters
      ∧ (t.reset fill2).myMusicFrequencies = t.myMusicFrequencies := by
  have hram : ∀ (fill : Nat → Nat) (c : CartridgeBUS) (x : Nat), x < 0x0800 →
      (c.reset fill).myBUSRAM x = c.myImage x := by
    intro fill c x hx
    rw [reset_eq, (bank_fields _ 6).1]
    exact if_pos hx
  have hcnt : ∀ (fill : Nat → Nat) (c : CartridgeBUS),
      (c.reset fill).myMusicCounters = c.myMusicCounters
        ∧ (c.reset fill).myMusicFrequencies = c.myMusicFrequencies := by
    intro fill c
    rw [reset_eq]
    exact ⟨(bank_fields _ 6).2.2.2.2.1, (bank_fields _ 6).2.2.2.2.2.1⟩
  refine ⟨?_, (hcnt fill1 s).1, (hcnt fill1 s).2, (hcnt fill2 t).1, (hcnt fill2 t).2⟩
  unfold CartridgeBUS.getDatastreamPointer
  rw [hram fill1 s _ (by simp only [DSxPTR]; omega), hram fill1 s _ (by simp only [DSxPTR]; omega),
    hram fill1 s _ (by simp only [DSxPTR]; omega), hram fill1 s _ (by simp only [DSxPTR]; omega),
    hram fill2 t _ (by simp only [DSxPTR]; omega), hram fill2 t _ (by simp only [DSxPTR]; omega),
    hram fill2 t _ (by simp only [DSxPTR]; omega), hram fill2 t _ (by simp only [DSxPTR]; omega),
    himg]

theorem reset_pointers_equal_witness :
    (zeroCart.reset (fun _ => 0)).getDatastreamPointer 17
        = (tunedCart.reset (fun _ => 7)).getDatastreamPointer 17
      ∧ (zeroCart.reset (fun _ => 0)).myMusicCounters = zeroCart.myMusicCounters
      ∧ (zeroCart.reset (fun _ => 0)).myMusicFrequencies = zeroCart.myMusicFrequencies
      ∧ (tunedCart.reset (fun _ => 7)).myMusicCounters = tunedCart.myMusicCounters
      ∧ (tunedCart.reset (fun _ => 7)).myMusicFrequencies = tunedCart.myMusicFrequencies :=
  reset_pointers_equal (fun _ => 0) (fun _ => 7) zeroCart tunedCart 17 rfl (by decide)

/-! ## The bank invariant of the reachable states -/

theorem sameBank_trans (a b c : CartridgeBUS) (h1 : sameBank a b) (h2 : sameBank b c) :
    sameBank a c :=
  ⟨h2.1.trans h1.1, h2.2.1.trans h1.2.1, h2.2.2.trans h1.2.2⟩

/-- Claim C14: for every device state and every snapshot record whose leading
type tag differs from the device's `name()`, `load` returns false and leaves the
device exactly as it was: `getBank()`, the RAM, the counters and every other
field. -/
theorem load_wrong_tag (c : CartridgeBUS) (tag : String) (rest : Serializer)
    (h : tag ≠ c.name) :
    (c.load (Field.string tag :: rest)).1 = false
      ∧ (c.load (Field.string tag :: rest)).2 = c
      ∧ (c.load (Field.string tag :: rest)).2.getBank = c.getBank
      ∧ (c.load (Field.string tag :: rest)).2.myBUSRAM = c.myBUSRAM
      ∧ (c.load (Field.string tag :: rest)).2.myMusicCounters = c.myMusicCounters
      ∧ (c.load (Field.string tag :: rest)).2.myAudioCycles = c.myAudioCycles
      ∧ (c.load (Field.string tag :: rest)).2.myARMCycles = c.myARMCycles := by
  have e : c.load (Field.string tag :: rest) = (false, c) := by
    unfold CartridgeBUS.load
    dsimp only [Serializer.getString]
    rw [if_pos h]
  rw [e]
  exact ⟨rfl, rfl, rfl, rfl, rfl, rfl, rfl⟩

theorem load_wrong_tag_witness :
    "CartridgeCDF" ≠ tunedCart.name
      ∧ (tunedCart.load ((zeroCart.save []).2.tail.cons (Field.string "CartridgeCDF"))).1 = false
      ∧ (tunedCart.load ((zeroCart.save []).2.tail.cons (Field.string "CartridgeCDF"))).2
          = tunedCart :=
  ⟨by decide,
   (load_wrong_tag tunedCart "CartridgeCDF" (zeroCart.save []).2.tail (by decide)).1,
   (load_wrong_tag tunedCart "CartridgeCDF" (zeroCart.save []).2.tail (by decide)).2.1⟩

/-- Claim C21: for a channel `ch` in 0..2 and a 32-bit value `v`,
`thumbCallback(0, ch, v)` sets the frequency of the channel to `v`,
`thumbCallback(1, ch, _)` sets its accumulator to 0 and `thumbCallback(3, ch, v)`
sets its waveform size to `v mod 256`; each returns 0 and leaves every other
entry and every other field as it was.  `thumbCallback(2, ch, _)` returns the
accumulator of the channel and changes nothing. -/
theorem thumbCallback_channel (d : CartridgeBUS) (ch v : Nat) (hc : ch < 3)
    (hv : v < 4294967296) :
    (∃ r, d.thumbCallback 0 ch v = some r
        ∧ r.1 = 0
        ∧ r.2.myMusicFrequencies ch = v
        ∧ (∀ j, j ≠ ch → r.2.myMusicFrequencies j = d.myMusicFrequencies j)
        ∧ r.2 = { d with myMusicFrequencies := r.2.myMusicFrequencies })
      ∧ (∀ w, ∃ r, d.thumbCallback 1 ch w = some r
        ∧ r.1 = 0
        ∧ r.2.myMusicCounters ch = 0
        ∧ (∀ j, j ≠ ch → r.2.myMusicCounters j = d.myMusicCounters j)
        ∧ r.2 = { d with myMusicCounters := r.2.myMusicCounters })
      ∧ (∃ r, d.thumbCallback 3 ch v = some r
        ∧ r.1 = 0
        ∧ r.2.myMusicWaveformSize ch = v % 256
        ∧ (∀ j, j ≠ ch → r.2.myMusicWaveformSize j = d.myMusicWaveformSize j)
        ∧ r.2 = { d with myMusicWaveformSize := r.2.myMusicWaveformSize })
      ∧ (∀ w, d.thumbCallback 2 ch w = some (d.myMusicCounters ch, d)) := by
  have e0 : d.thumbCallback 0 ch v
      = some (0, { d with myMusicFrequencies := storeWord 32 d.myMusicFrequencies ch v }) := by
    unfold CartridgeBUS.thumbCallback
    rw [if_pos rfl, if_pos hc]
  have e1 : ∀ w, d.thumbCallback 1 ch w
      = some (0, { d with myMusicCounters := storeWord 32 d.myMusicCounters ch 0 }) := by
    intro w
    unfold CartridgeBUS.thumbCallback
    rw [if_neg (by decide), if_pos rfl, if_pos hc]
  have e2 : ∀ w, d.thumbCallback 2 ch w = some (d.myMusicCounters ch, d) := by
    intro w
    unfold CartridgeBUS.thumbCallback
    rw [if_neg (by decide), if_neg (by decide), if_pos rfl, if_pos hc]
  have e3 : d.thumbCallback 3 ch v
      = some (0, { d with myMusicWaveformSize := storeWord 8 d.myMusicWaveformSize ch v }) := by
    unfold CartridgeBUS.thumbCallback
    rw [if_neg (by decide), if_neg (by decide), if_neg (by decide), if_pos rfl, if_pos hc]
  refine ⟨⟨_, e0, rfl, ?_, fun j hj => ?_, rfl⟩, fun w => ⟨_, e1 w, rfl, ?_, fun j hj => ?_, rfl⟩,
    ⟨_, e3, rfl, ?_, fun j hj => ?_, rfl⟩, e2⟩
  · show storeWord 32 d.myMusicFrequencies ch v ch = v
    unfold storeWord
    rw [if_pos rfl]
    exact Nat.mod_eq_of_lt hv
  · show storeWord 32 d.myMusicFrequencies ch v j = d.myMusicFrequencies j
    unfold storeWord
    rw [if_neg hj]
  · show storeWord 32 d.myMusicCounters ch 0 ch = 0
    unfold storeWord
    rw [if_pos rfl]
    rfl
  · show storeWord 32 d.myMusicCounters ch 0 j = d.myMusicCounters j
    unfold storeWord
    rw [if_neg hj]
  · show storeWord 8 d.myMusicWaveformSize ch v ch = v % 256
    unfold storeWord
    rw [if_pos rfl]
    rfl
  · show storeWord 8 d.myMusicWaveformSize ch v j = d.myMusicWaveformSize j
    unfold storeWord
    rw [if_neg hj]

theorem thumbCallback_channel_witness :
    (∃ r, tunedCart.thumbCallback 0 2 440 = some r ∧ r.2.myMusicFrequencies 2 = 440)
      ∧ (∃ r, tunedCart.thumbCallback 1 2 0 = some r ∧ r.2.myMusicCounters 2 = 0)
      ∧ (∃ r, tunedCart.thumbCallback 3 2 0x11B = some r ∧ r.2.myMusicWaveformSize 2 = 0x1B)
      ∧ tunedCart.thumbCallback 2 2 0 = some (1, tunedCart) :=
  ⟨(thumbCallback_channel tunedCart 2 440 (by decide) (by decide)).1.imp
      (fun _ h => ⟨h.1, h.2.2.1⟩),
   ((thumbCallback_channel tunedCart 2 440 (by decide) (by decide)).2.1 0).imp
      (fun _ h => ⟨h.1, h.2.2.1⟩),
   (thumbCallback_channel tunedCart 2 0x11B (by decide) (by decide)).2.2.1.imp
      (fun _ h => ⟨h.1, h.2.2.1⟩),
   (thumbCallback_channel tunedCart 2 440 (by decide) (by decide)).2.2.2 0⟩

/-- Claim C24, the code at the failing input: `thumbCallback` uses `value1` as
the array index without a check (lines 522, 528, 533 and 537).  For the
functions 0 to 3 and `value1 = 3` the access is outside the three elements of
the table: the source gives the call no meaning, where the claim has every
index below 3.  With `value1 = 2` the same calls are within the table. -/
theorem thumbCallback_out_of_range :
    zeroCart.thumbCallback 0 3 7 = none
      ∧ zeroCart.thumbCallback 1 3 0 = none
      ∧ zeroCart.thumbCallback 2 3 0 = none
      ∧ zeroCart.thumbCallback 3 3 27 = none
      ∧ (zeroCart.thumbCallback 0 2 7).isSome = true
      ∧ (zeroCart.thumbCallback 1 2 0).isSome = true
      ∧ (zeroCart.thumbCallback 2 2 0).isSome = true
      ∧ (zeroCart.thumbCallback 3 2 27).isSome = true :=
  ⟨rfl, rfl, rfl, rfl, rfl, rfl, rfl, rfl⟩

theorem thumbCallback_none_iff (d : CartridgeBUS) (function value1 value2 : Nat) :
    d.thumbCallback function value1 value2 = none ↔ function ≤ 3 ∧ 3 ≤ value1 := by
  unfold CartridgeBUS.thumbCallback
  split_ifs <;> simp <;> omega

/-! ## The CALLFN register -/

/-- Claim C22: a write to the CALLFN register (window offset `0xFF3`) returns
false and forwards nothing to a chip.  For the values 254 and 255 the
interpreter is run; when the run raises a fault `e`, `poke` still returns: in
auto-detect mode no error is surfaced, otherwise the one error `e` is; without
a fault no error is surfaced.  For any other byte the interpreter is not run
(the result does not depend on the system) and the device is unchanged. -/
theorem callfn_fault_contained (sys : System) (c : CartridgeBUS) (address value : Nat)
    (ha : address &&& 0x1000 ≠ 0) (hr : address &&& 0x0FFF = 0xFF3) :
    (c.poke sys address value).changed = false
      ∧ (c.poke sys address value).chip = none
      ∧ ((value = 254 ∨ value = 255) →
          ∀ e, (sys.thumbRun { c with myARMCycles := sys.cycles }
              (CartridgeBUS.toInt32
                ((sys.cycles + (18446744073709551616 - c.myARMCycles % 18446744073709551616))
                  % 18446744073709551616))).fault = some e →
            (sys.autodetectMode = true → (c.poke sys address value).fatal = none)
              ∧ (sys.autodetectMode = false → (c.poke sys address value).fatal = some e))
      ∧ ((value = 254 ∨ value = 255) →
          (sys.thumbRun { c with myARMCycles := sys.cycles }
              (CartridgeBUS.toInt32
                ((sys.cycles + (18446744073709551616 - c.myARMCycles % 18446744073709551616))
                  % 18446744073709551616))).fault = none →
            (c.poke sys address value).fatal = none)
      ∧ (¬ (value = 254 ∨ value = 255) → c.poke sys address value = ⟨false, none, none, c⟩) := by
  have hp : c.poke sys address value
      = ⟨false, none, (c.callFunction sys value).1, (c.callFunction sys value).2⟩ := by
    unfold CartridgeBUS.poke
    rw [if_neg ha]
    dsimp only
    rw [hr]
    rw [if_neg (by decide), if_neg (by decide), if_neg (by decide), if_neg (by decide),
      if_pos rfl]
  rw [hp]
  refine ⟨rfl, rfl, fun hv e he => ⟨fun hd => ?_, fun hd => ?_⟩, fun hv he => ?_, fun hv => ?_⟩
  · show (c.callFunction sys value).1 = none
    unfold CartridgeBUS.callFunction
    rw [if_pos hv]
    dsimp only
    rw [he, hd]
    rfl
  · show (c.callFunction sys value).1 = some e
    unfold CartridgeBUS.callFunction
    rw [if_pos hv]
    dsimp only
    rw [he, hd]
    rfl
  · show (c.callFunction sys value).1 = none
    unfold CartridgeBUS.callFunction
    rw [if_pos hv]
    dsimp only
    rw [he]
  · unfold CartridgeBUS.callFunction
    rw [if_neg hv]

theorem callfn_fault_contained_witness :
    (zeroCart.poke faultySystem 0x1FF3 255).fatal = some "fault"
      ∧ zeroCart.poke faultySystem 0x1FF3 7 = ⟨false, none, none, zeroCart⟩ :=
  ⟨((callfn_fault_contained faultySystem zeroCart 0x1FF3 255 (by decide) (by decide)).2.2.1
      (Or.inr rfl) "fault" rfl).2 rfl,
   (callfn_fault_contained faultySystem zeroCart 0x1FF3 7 (by decide) (by decide)).2.2.2.2
      (by decide)⟩

/-! ## Bank validity along reads and writes -/

/-- Claim C25, the code at the failing input: the test for `JMP $0000` reads
past the bank window.  The devices `lastByteCart` and `lastByteCartPast` (bank
6, `0x4C` in the last byte of the image, the window address `$1FFF`) differ in
nothing but the image cell 32768, the first past the 32768 bytes of the image;
`peek($1FFF)` arms the fast jump on the one and not on the other, so it reads
that cell.  The devices `edgeCart` and `edgeCartNext` (bank 0, `0x4C` at
`$1FFE`) differ in nothing but the first byte of bank 1, and `peek($1FFE)`
arms the fast jump on the one and not on the other. -/
theorem jmp_test_reads_past_window :
    lastByteCart.getBank = 6
      ∧ lastByteCartPast = { lastByteCart with myImage := lastByteCartPast.myImage }
      ∧ (∀ i, i ≠ 32768 → lastByteCart.myImage i = lastByteCartPast.myImage i)
      ∧ lastByteCart.myImage 32768 ≠ lastByteCartPast.myImage 32768
      ∧ (lastByteCart.peek idleSystem 0x1FFF).cart.myFastJumpActive = 2
      ∧ (lastByteCartPast.peek idleSystem 0x1FFF).cart.myFastJumpActive = 0
      ∧ edgeCart.getBank = 0
      ∧ edgeCartNext = { edgeCart with myImage := edgeCartNext.myImage }
      ∧ (∀ i, i ≠ 4096 + 0x1000 → edgeCart.myImage i = edgeCartNext.myImage i)
      ∧ edgeCart.myImage (4096 + 0x1000) ≠ edgeCartNext.myImage (4096 + 0x1000)
      ∧ (edgeCart.peek idleSystem 0x1FFE).cart.myFastJumpActive = 2
      ∧ (edgeCartNext.peek idleSystem 0x1FFE).cart.myFastJumpActive = 0 := by
  refine ⟨by decide, rfl, fun i hi => ?_, by decide, by decide, by decide, by decide, rfl,
    fun i hi => ?_, by decide, by decide, by decide⟩
  · show (if i = 0x7FFF then 0x4C else 0)
      = (if i = 0x7FFF then 0x4C else if i = 0x8000 then 1 else 0)
    rw [if_neg (show ¬ i = 0x8000 from hi)]
  · show (if i = 4096 + 0x0FFE then 0x4C else 0)
      = (if i = 4096 + 0x0FFE then 0x4C else if i = 4096 + 0x1000 then 1 else 0)
    rw [if_neg (show ¬ i = 4096 + 0x1000 from hi)]

/-- Claim C26, the code at the failing input: on `jumpCart` the read at `$1100`
returns the opcode `0x4C` and arms the fast jump (counter 2, operand address
`0x101`).  The read at `$1200`, another address, returns the ROM byte and
clears the operand address, but the counter is still 2; the later read at the
window address 0 (`$1000`) then meets the guard of lines 209-210 and is
redirected: it returns the datastream byte `0x11` where the ROM byte is 0, and
advances the pointer of the jump datastream. -/
theorem fast_jump_stale_redirect :
    (jumpCart.peek idleSystem 0x1100).value = 0x4C
      ∧ (jumpCart.peek idleSystem 0x1100).cart.myFastJumpActive = 2
      ∧ (jumpCart.peek idleSystem 0x1100).cart.myJMPoperandAddress = 0x101
      ∧ ((jumpCart.peek idleSystem 0x1100).cart.peek idleSystem 0x1200).value
          = jumpCart.myImage (4096 + (0x6000 + 0x200))
      ∧ ((jumpCart.peek idleSystem 0x1100).cart.peek idleSystem 0x1200).cart.myJMPoperandAddress
          = 0
      ∧ ((jumpCart.peek idleSystem 0x1100).cart.peek idleSystem 0x1200).cart.myFastJumpActive
          = 2
      ∧ jumpCart.myImage (4096 + (0x6000 + 0)) = 0
      ∧ (((jumpCart.peek idleSystem 0x1100).cart.peek idleSystem 0x1200).cart.peek idleSystem
          0x1000).value = 0x11
      ∧ ((jumpCart.peek idleSystem 0x1100).cart.peek idleSystem
          0x1200).cart.getDatastreamPointer JUMPSTREAM = 0
      ∧ (((jumpCart.peek idleSystem 0x1100).cart.peek idleSystem 0x1200).cart.peek idleSystem
          0x1000).cart.getDatastreamPointer JUMPSTREAM = 0x100000
      ∧ (((jumpCart.peek idleSystem 0x1100).cart.peek idleSystem 0x1200).cart.peek idleSystem
          0x1000).cart.myFastJumpActive = 1 := by
  refine ⟨by decide, by decide, by decide, by decide, by decide, by decide, by decide,
    by decide, by decide, by decide, by decide⟩

/-! ## Display-RAM accesses through a datastream pointer -/

theorem poke_dswrite (sys : System) (c : CartridgeBUS) (address value : Nat)
    (ha : address &&& 0x1000 ≠ 0) (hr : address &&& 0x0FFF = 0xFF0) :
    c.poke sys address value
      = ⟨false, none, none,
          CartridgeBUS.setDatastreamPointer
            { c with myBUSRAM :=
                store c.myBUSRAM (DSRAM + (c.getDatastreamPointer COMMSTREAM >>> 20)) value }
            COMMSTREAM ((c.getDatastreamPointer COMMSTREAM + 0x100000) % 4294967296)⟩ := by
  unfold CartridgeBUS.poke
  rw [if_neg ha]
  dsimp only
  rw [hr]
  rw [if_neg (by decide), if_pos rfl]

theorem poke_dsptr (sys : System) (c : CartridgeBUS) (address value : Nat)
    (ha : address &&& 0x1000 ≠ 0) (hr : address &&& 0x0FFF = 0xFF1) :
    c.poke sys address value
      = ⟨false, none, none,
          c.setDatastreamPointer COMMSTREAM
            (((((c.getDatastreamPointer COMMSTREAM <<< 8) % 4294967296) &&& 0xf0000000)
              ||| (value <<< 20)) % 4294967296)⟩ := by
  unfold CartridgeBUS.poke
  rw [if_neg ha]
  dsimp only
  rw [hr]
  rw [if_neg (by decide), if_neg (by decide), if_pos rfl]

theorem datastreamAccessIndex_bounds (c : CartridgeBUS) (index : Nat) :
    0x0800 ≤ datastreamAccessIndex c index ∧ datastreamAccessIndex c index ≤ 0x17FF := by
  have h := getDatastreamPointer_lt c index
  unfold datastreamAccessIndex DSRAM
  rw [Nat.shiftRight_eq_div_pow]
  omega

/-- Claim C27: for every device state and every stream index in 0..17, the
display-RAM access made through the pointer of the stream, by
`readFromDatastream`, by the DSWRITE write and by the fast-jump fetch, is at the
RAM index `0x0800 + (pointer >> 20)`, which lies in `0x0800..0x17FF`: inside
the 8 KiB RAM and apart from every cell of the pointer, increment and
address-map tables. -/
theorem datastream_access_in_display_ram (sys : System) (c : CartridgeBUS) (index : Nat)
    (hi : index < 18) :
    datastreamAccessIndex c index = 0x0800 + (c.getDatastreamPointer index >>> 20)
      ∧ 0x0800 ≤ datastreamAccessIndex c index ∧ datastreamAccessIndex c index ≤ 0x17FF
      ∧ datastreamAccessIndex c index < 8192
      ∧ (∀ i k, i < 18 → k < 4 →
          datastreamAccessIndex c index ≠ DSxPTR + i * 4 + k
            ∧ datastreamAccessIndex c index ≠ DSxINC + i * 4 + k)
      ∧ (∀ m k, m ≤ 0x24 → k < 4 → datastreamAccessIndex c index ≠ DSMAPS + m * 4 + k)
      ∧ (c.readFromDatastream index).1 = c.myBUSRAM (datastreamAccessIndex c index)
      ∧ (∀ x, 0x0800 ≤ x → (c.readFromDatastream index).2.myBUSRAM x = c.myBUSRAM x)
      ∧ (∀ address value, address &&& 0x1000 ≠ 0 → address &&& 0x0FFF = 0xFF0 →
          (c.poke sys address value).cart.myBUSRAM (datastreamAccessIndex c COMMSTREAM)
              = value % 256
            ∧ ∀ x, 0x0800 ≤ x → x ≠ datastreamAccessIndex c COMMSTREAM →
                (c.poke sys address value).cart.myBUSRAM x = c.myBUSRAM x)
      ∧ (∀ address, fastJumpRedirects c address →
          (c.peek sys address).value = c.myBUSRAM (datastreamAccessIndex c JUMPSTREAM)
            ∧ ∀ x, 0x0800 ≤ x → (c.peek sys address).cart.myBUSRAM x = c.myBUSRAM x) := by
  obtain ⟨b1, b2⟩ := datastreamAccessIndex_bounds c index
  obtain ⟨q1, q2⟩ := datastreamAccessIndex_bounds c 16
  refine ⟨rfl, b1, b2, by omega, fun i k hi2 hk => ?_, fun m k hm hk => ?_, rfl,
    fun x hx => ?_, fun address value ha hr => ?_, fun address hred => ?_⟩
  · unfold DSxPTR DSxINC
    omega
  · unfold DSMAPS
    omega
  · show (c.setDatastreamPointer index _).myBUSRAM x = c.myBUSRAM x
    refine setDatastreamPointer_other c index _ x (Or.inr ?_)
    unfold DSxPTR
    omega
  · rw [poke_dswrite sys c address value ha hr]
    dsimp only
    refine ⟨?_, fun x hx hne => ?_⟩
    · rw [setDatastreamPointer_other _ _ _ _ (Or.inr (by unfold DSxPTR COMMSTREAM; omega))]
      exact store_eq _ _ _
    · rw [setDatastreamPointer_other _ _ _ _ (Or.inr (by unfold DSxPTR COMMSTREAM; omega))]
      exact store_ne _ _ _ _ hne
  · obtain ⟨hw, hl, hf, hj⟩ := hred
    obtain ⟨p1, _, _, _, _, p6⟩ := peek_fastjump_fetch_spec sys c address hl hw hf hj
    exact ⟨p1, p6⟩

theorem datastream_access_in_display_ram_witness :
    datastreamAccessIndex wrapCart 0 = 0x17FF
      ∧ (wrapCart.readFromDatastream 0).1 = wrapCart.myBUSRAM 0x17FF
      ∧ datastreamAccessIndex wrapCart 0 < 8192 :=
  ⟨by decide,
   (datastream_access_in_display_ram idleSystem wrapCart 0 (by decide)).2.2.2.2.2.2.1.trans
      (congrArg wrapCart.myBUSRAM (by decide)),
   (datastream_access_in_display_ram idleSystem wrapCart 0 (by decide)).2.2.2.1⟩

/-! ## The rotation of an address-map entry by the bus overdrive -/

theorem getAddressMap_lt (c : CartridgeBUS) (i : Nat) : c.getAddressMap i < 4294967296 := by
  unfold CartridgeBUS.getAddressMap
  exact Nat.mod_lt _ (by decide)

theorem getAddressMap_set (c : CartridgeBUS) (i v : Nat) :
    (c.setAddressMap i v).getAddressMap i = v % 4294967296 := by
  unfold CartridgeBUS.getAddressMap CartridgeBUS.setAddressMap
  dsimp only
  obtain ⟨h0, h1, h2, h3⟩ := store4_read c.myBUSRAM (DSMAPS + i * 4)
    (v &&& 0xff) ((v >>> 8) &&& 0xff) ((v >>> 16) &&& 0xff) ((v >>> 24) &&& 0xff)
  rw [h0, h1, h2, h3]
  exact pack_unpack v

theorem getAddressMap_congr (c d : CartridgeBUS) (i : Nat)
    (h : ∀ k, k < 4 → d.myBUSRAM (DSMAPS + i * 4 + k) = c.myBUSRAM (DSMAPS + i * 4 + k)) :
    d.getAddressMap i = c.getAddressMap i := by
  unfold CartridgeBUS.getAddressMap
  rw [h 0 (by decide), h 1 (by decide), h 2 (by decide), h 3 (by decide)]

theorem readFromDatastream_getAddressMap (c : CartridgeBUS) (ds m : Nat) (hds : ds < 16) :
    (c.readFromDatastream ds).2.getAddressMap m = c.getAddressMap m := by
  refine getAddressMap_congr c _ m (fun k hk => ?_)
  show (c.setDatastreamPointer ds _).myBUSRAM _ = _
  refine setDatastreamPointer_other c ds _ _ (Or.inr ?_)
  unfold DSxPTR DSMAPS
  omega

theorem and_f (x : Nat) : x &&& 0x0f = x % 16 :=
  Nat.and_pow_two_sub_one_eq_mod x 4

theorem rotate_code (x : Nat) (hx : x < 4294967296) :
    ((x >>> 4) ||| ((x &&& 0x0f) <<< 28)) % 4294967296 = rotateNybble x := by
  have h := Nat.mul_add_lt_is_or (show x / 16 < 2 ^ 28 by omega) (x % 16)
  rw [and_f, Nat.shiftRight_eq_div_pow, Nat.shiftLeft_eq, Nat.lor_comm]
  unfold rotateNybble
  norm_num at h ⊢
  rw [Nat.mul_comm (x % 16) 268435456, ← h]
  omega

theorem busOverdrive_map (c : CartridgeBUS) (address : Nat)
    (ha : address = c.myBusOverdriveAddress) (hm : address &&& 0x7f ≤ 0x24) :
    (c.busOverdrive address).2.getAddressMap (address &&& 0x7f)
      = rotateNybble (c.getAddressMap (address &&& 0x7f)) := by
  have e : (c.busOverdrive address).2.getAddressMap (address &&& 0x7f)
      = ((c.readFromDatastream (c.getAddressMap (address &&& 0x7f) &&& 0x0f)).2.setAddressMap
          (address &&& 0x7f)
          (((c.getAddressMap (address &&& 0x7f) >>> 4)
            ||| ((c.getAddressMap (address &&& 0x7f) &&& 0x0f) <<< 28)) % 4294967296)).getAddressMap
          (address &&& 0x7f) := by
    unfold CartridgeBUS.busOverdrive
    dsimp only
    rw [if_pos ha, if_pos hm]
    rfl
  rw [e, getAddressMap_set, Nat.mod_mod, rotate_code _ (getAddressMap_lt c _)]

theorem armed_overdrive_map (c : CartridgeBUS) (address : Nat) (hm : address &&& 0x7f ≤ 0x24) :
    (CartridgeBUS.busOverdrive { c with myBusOverdriveAddress := address }
        address).2.getAddressMap (address &&& 0x7f)
      = rotateNybble (c.getAddressMap (address &&& 0x7f)) :=
  busOverdrive_map { c with myBusOverdriveAddress := address } address rfl hm

theorem overdriveTimes_map (address : Nat) (hm : address &&& 0x7f ≤ 0x24) (n : Nat)
    (c : CartridgeBUS) :
    (overdriveTimes address n c).getAddressMap (address &&& 0x7f)
      = rotateNybble^[n] (c.getAddressMap (address &&& 0x7f)) := by
  induction n generalizing c with
  | zero => rfl
  | succ n ih =>
    rw [Function.iterate_succ_apply, ← armed_overdrive_map c address hm]
    exact ih _

theorem overdriveStreams_eq (address : Nat) (hm : address &&& 0x7f ≤ 0x24) (n : Nat)
    (c : CartridgeBUS) :
    overdriveStreams address n c
      = (List.range n).map (fun k => rotateNybble^[k] (c.getAddressMap (address &&& 0x7f)) % 16) := by
  induction n generalizing c with
  | zero => rfl
  | succ n ih =>
    rw [List.range_succ_eq_map, List.map_cons, List.map_map]
    show (c.getAddressMap (address &&& 0x7f) &&& 0x0f) :: overdriveStreams address n _ = _
    rw [ih, armed_overdrive_map c address hm, and_f]
    rfl

theorem rotateNybble_digits (n0 n1 n2 n3 n4 n5 n6 n7 : Nat)
    (h0 : n0 < 16) :
    rotateNybble (n0 + 16 * n1 + 256 * n2 + 4096 * n3 + 65536 * n4 + 1048576 * n5 + 16777216 * n6 + 268435456 * n7)
      = n1 + 16 * n2 + 256 * n3 + 4096 * n4 + 65536 * n5 + 1048576 * n6 + 16777216 * n7 + 268435456 * n0 := by
  unfold rotateNybble
  omega

theorem rotateNybble_eight_digits (n0 n1 n2 n3 n4 n5 n6 n7 : Nat)
    (h0 : n0 < 16) (h1 : n1 < 16) (h2 : n2 < 16) (h3 : n3 < 16) (h4 : n4 < 16) (h5 : n5 < 16) (h6 : n6 < 16) (h7 : n7 < 16) :
    rotateNybble^[8] (n0 + 16 * n1 + 256 * n2 + 4096 * n3 + 65536 * n4 + 1048576 * n5 + 16777216 * n6 + 268435456 * n7)
        = n0 + 16 * n1 + 256 * n2 + 4096 * n3 + 65536 * n4 + 1048576 * n5 + 16777216 * n6 + 268435456 * n7
      ∧ (List.range 8).map
          (fun k => rotateNybble^[k] (n0 + 16 * n1 + 256 * n2 + 4096 * n3 + 65536 * n4 + 1048576 * n5 + 16777216 * n6 + 268435456 * n7) % 16)
        = [n0, n1, n2, n3, n4, n5, n6, n7] := by
  simp only [List.range_succ, List.range_zero, List.nil_append, List.cons_append, List.map_cons,
    List.map_nil, Function.iterate_succ, Function.iterate_zero, Function.comp_apply, id_eq,
    List.cons.injEq, and_true]
  rw [rotateNybble_digits n0 n1 n2 n3 n4 n5 n6 n7 h0,
    rotateNybble_digits n1 n2 n3 n4 n5 n6 n7 n0 h1,
    rotateNybble_digits n2 n3 n4 n5 n6 n7 n0 n1 h2,
    rotateNybble_digits n3 n4 n5 n6 n7 n0 n1 n2 h3,
    rotateNybble_digits n4 n5 n6 n7 n0 n1 n2 n3 h4,
    rotateNybble_digits n5 n6 n7 n0 n1 n2 n3 n4 h5,
    rotateNybble_digits n6 n7 n0 n1 n2 n3 n4 n5 h6,
    rotateNybble_digits n7 n0 n1 n2 n3 n4 n5 n6 h7]
  refine ⟨rfl, ?_, ?_, ?_, ?_, ?_, ?_, ?_, ?_⟩ <;> omega

theorem rotateNybble_eight (x : Nat) (hx : x < 4294967296) :
    rotateNybble^[8] x = x
      ∧ (List.range 8).map (fun k => rotateNybble^[k] x % 16)
        = [x % 16, x / 16 % 16, x / 256 % 16, x / 4096 % 16, x / 65536 % 16,
            x / 1048576 % 16, x / 16777216 % 16, x / 268435456 % 16] := by
  have e : x % 16 + 16 * (x / 16 % 16) + 256 * (x / 256 % 16) + 4096 * (x / 4096 % 16)
      + 65536 * (x / 65536 % 16) + 1048576 * (x / 1048576 % 16)
      + 16777216 * (x / 16777216 % 16) + 268435456 * (x / 268435456 % 16) = x := by
    omega
  have h := rotateNybble_eight_digits (x % 16) (x / 16 % 16) (x / 256 % 16) (x / 4096 % 16)
    (x / 65536 % 16) (x / 1048576 % 16) (x / 16777216 % 16) (x / 268435456 % 16)
    (Nat.mod_lt _ (by decide)) (Nat.mod_lt _ (by decide)) (Nat.mod_lt _ (by decide))
    (Nat.mod_lt _ (by decide)) (Nat.mod_lt _ (by decide)) (Nat.mod_lt _ (by decide))
    (Nat.mod_lt _ (by decide)) (Nat.mod_lt _ (by decide))
  rw [e] at h
  exact h

/-- Claim C28: when `busOverdrive` fires for a matching address with map index
`m = address & 0x7F <= 0x24`, it reads from the datastream named by the lowest
nybble of the address-map entry `m` and replaces the entry by its right
rotation by one nybble, the nybble just used moving to the top.  Eight
consecutive overdriven writes through the entry use its eight nybbles in order
from the lowest to the highest and leave the entry equal to its original
value. -/
theorem overdrive_rotates_map (c : CartridgeBUS) (address : Nat)
    (hm : address &&& 0x7f ≤ 0x24) :
    (address = c.myBusOverdriveAddress →
        (c.busOverdrive address).1
            = (c.readFromDatastream (c.getAddressMap (address &&& 0x7f) % 16)).1
          ∧ (c.busOverdrive address).2.getAddressMap (address &&& 0x7f)
              = rotateNybble (c.getAddressMap (address &&& 0x7f)))
      ∧ rotateNybble (c.getAddressMap (address &&& 0x7f)) / 268435456
          = c.getAddressMap (address &&& 0x7f) % 16
      ∧ rotateNybble (c.getAddressMap (address &&& 0x7f)) % 268435456
          = c.getAddressMap (address &&& 0x7f) / 16
      ∧ overdriveStreams address 8 c
          = [c.getAddressMap (address &&& 0x7f) % 16,
              c.getAddressMap (address &&& 0x7f) / 16 % 16,
              c.getAddressMap (address &&& 0x7f) / 256 % 16,
              c.getAddressMap (address &&& 0x7f) / 4096 % 16,
              c.getAddressMap (address &&& 0x7f) / 65536 % 16,
              c.getAddressMap (address &&& 0x7f) / 1048576 % 16,
              c.getAddressMap (address &&& 0x7f) / 16777216 % 16,
              c.getAddressMap (address &&& 0x7f) / 268435456 % 16]
      ∧ (overdriveTimes address 8 c).getAddressMap (address &&& 0x7f)
          = c.getAddressMap (address &&& 0x7f) := by
  have hx := getAddressMap_lt c (address &&& 0x7f)
  obtain ⟨r1, r2⟩ := rotateNybble_eight _ hx
  refine ⟨fun ha => ⟨?_, busOverdrive_map c address ha hm⟩, ?_, ?_, ?_, ?_⟩
  · have e1 : (c.busOverdrive address).1
        = (c.readFromDatastream (c.getAddressMap (address &&& 0x7f) &&& 0x0f)).1 := by
      unfold CartridgeBUS.busOverdrive
      dsimp only
      rw [if_pos ha, if_pos hm]
    rw [and_f] at e1
    exact e1
  · unfold rotateNybble
    omega
  · unfold rotateNybble
    omega
  · rw [overdriveStreams_eq address hm 8 c]
    exact r2
  · rw [overdriveTimes_map address hm 8 c]
    exact r1

theorem overdrive_rotates_map_witness :
    2 &&& 0x7f ≤ 0x24
      ∧ armedCart.getAddressMap (2 &&& 0x7f) = 3
      ∧ (armedCart.busOverdrive 2).2.getAddressMap (2 &&& 0x7f) = 0x30000000
      ∧ (overdriveTimes 2 8 armedCart).getAddressMap (2 &&& 0x7f)
          = armedCart.getAddressMap (2 &&& 0x7f) :=
  ⟨by decide, by decide,
   (((overdrive_rotates_map armedCart 2 (by decide)).1 rfl).2).trans (by decide),
   (overdrive_rotates_map armedCart 2 (by decide)).2.2.2.2⟩

/-! ## The DSPTR and DSWRITE registers -/

theorem and_f0000000 (x : Nat) : x &&& 0xf0000000 = 268435456 * (x / 268435456 % 16) := by
  have hc : (0xf0000000 : Nat) = 2 ^ 28 * (2 ^ 4 - 1) := by norm_num
  have hd : (268435456 : Nat) = 2 ^ 28 := by norm_num
  have h16 : (16 : Nat) = 2 ^ 4 := by norm_num
  rw [hc, hd, h16]
  apply Nat.eq_of_testBit_eq
  intro i
  rw [Nat.testBit_and, Nat.testBit_mul_pow_two, Nat.testBit_mul_pow_two,
    Nat.testBit_two_pow_sub_one, Nat.testBit_mod_two_pow, ← Nat.shiftRight_eq_div_pow,
    Nat.testBit_shiftRight]
  by_cases h : 28 ≤ i
  · have e : 28 + (i - 28) = i := by omega
    rw [e]
    cases x.testBit i <;> simp [h]
  · simp [h]

theorem dsptr_value (q v : Nat) (hv : v < 256) :
    ((((q <<< 8) % 4294967296) &&& 0xf0000000) ||| (v <<< 20)) % 4294967296
      = 268435456 * (q / 1048576 % 16) + 1048576 * v := by
  have h := Nat.mul_add_lt_is_or (show 1048576 * v < 2 ^ 28 by omega)
    ((q <<< 8) % 4294967296 / 268435456 % 16)
  rw [and_f0000000]
  norm_num at h
  rw [Nat.shiftLeft_eq v 20]
  norm_num
  rw [Nat.mul_comm v 1048576, ← h, Nat.shiftLeft_eq]
  norm_num
  omega

theorem position_value (v1 v2 : Nat) (h2 : v2 < 256) :
    ((v1 &&& 0x0F) <<< 8) ||| v2 = 256 * (v1 % 16) + v2 := by
  have h := Nat.mul_add_lt_is_or (show v2 < 2 ^ 8 by omega) (v1 % 16)
  rw [and_f, Nat.shiftLeft_eq]
  norm_num at h ⊢
  rw [Nat.mul_comm (v1 % 16) 256, ← h]

theorem dsptr_twice (sys : System) (c : CartridgeBUS) (A v1 v2 : Nat)
    (hA : A &&& 0x1000 ≠ 0) (hr : A &&& 0x0FFF = 0xFF1) (h1 : v1 < 256) (h2 : v2 < 256) :
    ((c.poke sys A v1).cart.poke sys A v2).cart.getDatastreamPointer COMMSTREAM
      = 1048576 * (256 * (v1 % 16) + v2) := by
  rw [poke_dsptr sys _ A v2 hA hr, poke_dsptr sys c A v1 hA hr]
  dsimp only
  rw [getDatastreamPointer_set, getDatastreamPointer_set, dsptr_value _ v1 h1, Nat.mod_mod,
    dsptr_value _ v2 h2]
  omega

/-- Claim C29 as stated fails at the last display position: on `zeroCart` the
writes of `0x0F` and `0xFF` to DSPTR (`$1FF1`) leave the communication pointer
at the integer position `0xFFF`, and the DSWRITE (`$1FF0`) of `0x55` that
follows stores the byte there and leaves the integer position 0, not
`0xFFF + 1`. -/
theorem dswrite_wraps_counterexample :
    ((zeroCart.poke idleSystem 0x1FF1 0x0F).cart.poke idleSystem 0x1FF1
        0xFF).cart.getDatastreamPointer COMMSTREAM >>> 20 = 0xFFF
      ∧ (((zeroCart.poke idleSystem 0x1FF1 0x0F).cart.poke idleSystem 0x1FF1
        0xFF).cart.poke idleSystem 0x1FF0 0x55).cart.myBUSRAM (DSRAM + 0xFFF) = 0x55
      ∧ (((zeroCart.poke idleSystem 0x1FF1 0x0F).cart.poke idleSystem 0x1FF1
        0xFF).cart.poke idleSystem 0x1FF0 0x55).cart.getDatastreamPointer COMMSTREAM >>> 20
          = 0
      ∧ (0 : Nat) ≠ 0xFFF + 1 := by
  refine ⟨by decide, by decide, by decide, by decide⟩

/-- Claim C29, amended: for every device state and every pair of bytes `v1`,
`v2`, two consecutive writes of `v1` then `v2` to DSPTR leave the pointer of the
communication datastream equal to `(((v1 & 0x0F) << 8) | v2) << 20`, the
integer position `((v1 & 0x0F) << 8) | v2` with zero fraction, whatever the
pointer was before; a following DSWRITE of the byte `b` stores `b` at that
display-RAM position and leaves the pointer at the integer position one higher
modulo 4096, with zero fraction: the next position below `0xFFF`, and 0 from
`0xFFF`. -/
theorem dsptr_then_dswrite (sys : System) (c : CartridgeBUS) (A W v1 v2 b : Nat)
    (hA : A &&& 0x1000 ≠ 0) (hAr : A &&& 0x0FFF = 0xFF1)
    (hW : W &&& 0x1000 ≠ 0) (hWr : W &&& 0x0FFF = 0xFF0)
    (h1 : v1 < 256) (h2 : v2 < 256) (hb : b < 256) :
    ((c.poke sys A v1).cart.poke sys A v2).cart.getDatastreamPointer COMMSTREAM
        = (((v1 &&& 0x0F) <<< 8) ||| v2) <<< 20
      ∧ ((c.poke sys A v1).cart.poke sys A v2).cart.getDatastreamPointer COMMSTREAM >>> 20
          = ((v1 &&& 0x0F) <<< 8) ||| v2
      ∧ ((c.poke sys A v1).cart.poke sys A v2).cart.getDatastreamPointer COMMSTREAM % 1048576
          = 0
      ∧ ((v1 &&& 0x0F) <<< 8) ||| v2 < 4096
      ∧ (((c.poke sys A v1).cart.poke sys A v2).cart.poke sys W b).cart.myBUSRAM
          (DSRAM + (((v1 &&& 0x0F) <<< 8) ||| v2)) = b
      ∧ (((c.poke sys A v1).cart.poke sys A v2).cart.poke sys W b).cart.getDatastreamPointer
          COMMSTREAM = (((((v1 &&& 0x0F) <<< 8) ||| v2) + 1) % 4096) <<< 20
      ∧ (((v1 &&& 0x0F) <<< 8) ||| v2 < 0xFFF →
          (((c.poke sys A v1).cart.poke sys A v2).cart.poke sys W b).cart.getDatastreamPointer
            COMMSTREAM >>> 20 = (((v1 &&& 0x0F) <<< 8) ||| v2) + 1)
      ∧ (((v1 &&& 0x0F) <<< 8) ||| v2 = 0xFFF →
          (((c.poke sys A v1).cart.poke sys A v2).cart.poke sys W b).cart.getDatastreamPointer
            COMMSTREAM = 0) := by
  have hp := dsptr_twice sys c A v1 v2 hA hAr h1 h2
  have hpos := position_value v1 v2 h2
  have hw : (((c.poke sys A v1).cart.poke sys A v2).cart.poke sys W b).cart.getDatastreamPointer
      COMMSTREAM = 1048576 * ((256 * (v1 % 16) + v2 + 1) % 4096) := by
    rw [poke_dswrite sys _ W b hW hWr]
    dsimp only
    rw [getDatastreamPointer_set, hp]
    omega
  have hram : (((c.poke sys A v1).cart.poke sys A v2).cart.poke sys W b).cart.myBUSRAM
      (DSRAM + (256 * (v1 % 16) + v2)) = b := by
    rw [poke_dswrite sys _ W b hW hWr]
    dsimp only
    rw [setDatastreamPointer_other _ _ _ _ (Or.inr (by unfold DSxPTR COMMSTREAM DSRAM; omega))]
    rw [hp, Nat.shiftRight_eq_div_pow]
    have e : 1048576 * (256 * (v1 % 16) + v2) / 2 ^ 20 = 256 * (v1 % 16) + v2 := by omega
    rw [e]
    show store _ (DSRAM + (256 * (v1 % 16) + v2)) b (DSRAM + (256 * (v1 % 16) + v2)) = b
    rw [store_eq]
    exact Nat.mod_eq_of_lt hb
  rw [hpos, hp, hw]
  refine ⟨?_, ?_, ?_, ?_, hram, ?_, fun h => ?_, fun h => ?_⟩
  · rw [Nat.shiftLeft_eq]
    omega
  · rw [Nat.shiftRight_eq_div_pow]
    omega
  · omega
  · omega
  · rw [Nat.shiftLeft_eq]
    omega
  · rw [Nat.shiftRight_eq_div_pow]
    omega
  · omega

theorem dsptr_then_dswrite_witness :
    ((zeroCart.poke idleSystem 0x1FF1 0x12).cart.poke idleSystem 0x1FF1
        0x34).cart.getDatastreamPointer COMMSTREAM >>> 20 = 0x234
      ∧ (((zeroCart.poke idleSystem 0x1FF1 0x12).cart.poke idleSystem 0x1FF1
        0x34).cart.poke idleSystem 0x1FF0 0x55).cart.myBUSRAM (DSRAM + 0x234) = 0x55
      ∧ (((zeroCart.poke idleSystem 0x1FF1 0x12).cart.poke idleSystem 0x1FF1
        0x34).cart.poke idleSystem 0x1FF0 0x55).cart.getDatastreamPointer COMMSTREAM >>> 20
          = 0x235 :=
  ⟨(dsptr_then_dswrite idleSystem zeroCart 0x1FF1 0x1FF0 0x12 0x34 0x55 (by decide) (by decide)
      (by decide) (by decide) (by decide) (by decide) (by decide)).2.1,
   (dsptr_then_dswrite idleSystem zeroCart 0x1FF1 0x1FF0 0x12 0x34 0x55 (by decide) (by decide)
      (by decide) (by decide) (by decide) (by decide) (by decide)).2.2.2.2.1,
   (dsptr_then_dswrite idleSystem zeroCart 0x1FF1 0x1FF0 0x12 0x34 0x55 (by decide) (by decide)
      (by decide) (by decide) (by decide) (by decide) (by decide)).2.2.2.2.2.2.1 (by decide)⟩

/-! ## A failing `load` -/

end Stella
